import Mathlib

/-!
# CopyPaste native launcher: a shallow embedding of `CopyPaste.Launcher/main.cpp`

The launcher is a single-threaded Win32 program.  Its process-wide globals
(`g_hwnd`, `g_readyEvent`, ...) become the fields of `Session`; every function
of the source becomes a function on `Session` that also returns the list of
operating-system calls it makes, in program order.  Everything the operating
system answers (handles, wait results, tick counts, queued messages) is an
explicit input.

Handles are natural numbers, `0` being `NULL`.  `DWORD` values are natural
numbers below `2 ^ 32`, and `DWORD` arithmetic is taken modulo `2 ^ 32`.
-/

namespace Launcher

/-! ## Constants of the source -/

/-- Width of the splash window (`#define WINDOW_WIDTH 360`). -/
def WINDOW_WIDTH : Int := 360
/-- Height of the splash window (`#define WINDOW_HEIGHT 280`). -/
def WINDOW_HEIGHT : Int := 280
/-- Edge of the logo square (`#define LOGO_SIZE 80`). -/
def LOGO_SIZE : Int := 80
/-- Height of the progress track (`#define PROGRESS_HEIGHT 4`). -/
def PROGRESS_HEIGHT : Int := 4
/-- Maximum wait, `#define MAX_WAIT_MS (5 * 60 * 1000)`. -/
def MAX_WAIT_MS : Nat := 5 * 60 * 1000
/-- Period of the fast timer (`#define PROGRESS_INTERVAL 150`). -/
def PROGRESS_INTERVAL : Nat := 150
/-- Number of status messages (`#define STATUS_COUNT 6`). -/
def STATUS_COUNT : Int := 6

/-- The table `STATUS_MESSAGES[]` of the source. -/
def STATUS_MESSAGES : List String :=
  [ "Starting...",
    "Loading components...",
    "Compiling resources...",
    "Optimizing performance...",
    "Almost ready...",
    "Thanks for your patience..." ]

/-! ## Constants of the Windows SDK headers used by the source -/

/-- Wait result: the first handle is signalled (`WAIT_OBJECT_0`, winbase.h). -/
def WAIT_OBJECT_0 : Nat := 0
/-- Wait result: the time-out elapsed (`WAIT_TIMEOUT`, winerror.h). -/
def WAIT_TIMEOUT : Nat := 258
/-- Wait result: the call failed (`WAIT_FAILED`, winbase.h). -/
def WAIT_FAILED : Nat := 0xFFFFFFFF
/-- Exit code reported for a process that has not exited (`STILL_ACTIVE`, winbase.h). -/
def STILL_ACTIVE : Nat := 259
/-- Last-error value of `CreateMutexW` on an existing name (winerror.h). -/
def ERROR_ALREADY_EXISTS : Nat := 183
/-- Message identifier `WM_DESTROY` (winuser.h). -/
def WM_DESTROY : Nat := 0x0002
/-- Message identifier `WM_PAINT` (winuser.h). -/
def WM_PAINT : Nat := 0x000F
/-- Message identifier `WM_QUIT` (winuser.h). -/
def WM_QUIT : Nat := 0x0012
/-- Message identifier `WM_TIMER` (winuser.h). -/
def WM_TIMER : Nat := 0x0113
/-- Number of values of a `DWORD`. -/
def DWORD_MOD : Nat := 2 ^ 32

/-! ## Session state: the globals of the source -/

/-- The process-wide globals of `main.cpp`.  Handles are `0` when `NULL`. -/
structure Session where
  g_titleFont : Nat
  g_subFont : Nat
  g_statusFont : Nat
  g_bgBrush : Nat
  g_progressBgBrush : Nat
  g_progressFgBrush : Nat
  g_borderBrush : Nat
  g_hwnd : Nat
  g_readyEvent : Nat
  g_appProcess : Nat
  g_logoImage : Nat
  g_gdiplusToken : Nat
  g_progressPos : Int
  g_isClosing : Bool
  g_statusText : String
  g_exeDir : String
  g_statusIndex : Int
  deriving DecidableEq, Repr

/-- The static initialisers of the globals. -/
def Session.initial : Session where
  g_titleFont := 0
  g_subFont := 0
  g_statusFont := 0
  g_bgBrush := 0
  g_progressBgBrush := 0
  g_progressFgBrush := 0
  g_borderBrush := 0
  g_hwnd := 0
  g_readyEvent := 0
  g_appProcess := 0
  g_logoImage := 0
  g_gdiplusToken := 0
  g_progressPos := 0
  g_isClosing := false
  g_statusText := "Starting..."
  g_exeDir := ""
  g_statusIndex := 0

/-- A window message (`MSG`): target window, identifier and `wParam`. -/
structure Msg where
  hwnd : Nat
  message : Nat
  wParam : Nat
  deriving DecidableEq, Repr

/-- A rectangle `{ left, top, right, bottom }`. -/
structure Rect where
  left : Int
  top : Int
  right : Int
  bottom : Int
  deriving DecidableEq, Repr

/-- The cached GDI objects, one name per global that holds one. -/
inductive GdiSlot
  | titleFont | subFont | statusFont
  | bgBrush | progressBgBrush | progressFgBrush | borderBrush
  deriving DecidableEq, Repr

/-- The kernel handles the launcher passes to `CloseHandle`, named after the
variable that holds them. -/
inductive HandleSlot
  | mutex | existingEvent | hThread | readyEvent | appProcess
  deriving DecidableEq, Repr

/-- Calls made by the launcher, recorded in program order: every call that
creates, signals, shows or releases something, and the calls of the main loop.
Pure queries of startup (`GetModuleFileNameW`, `LoadCursor`, `LoadImageW`,
`GetSystemMetrics`) and the text, logo and buffer handling of painting are not
recorded.  `LoadLogo` and `InitGdiObjects` stand for the calls made inside
these two functions of the source. -/
inductive Call
  | CreateMutexW
  | OpenEventW
  | SetEvent (h : Nat)
  | CreateEventW
  | GdiplusStartup
  | LoadLogo
  | InitGdiObjects
  | RegisterClassExW
  | CreateWindowExW
  | ShowWindow (hwnd : Nat)
  | UpdateWindow (hwnd : Nat)
  | CreateProcessW
  | MessageBoxW
  | SetTimer (hwnd id period : Nat)
  | GetTickCount
  | MsgWaitForMultipleObjects
  | WaitForSingleObject (h : Nat)
  | GetExitCodeProcess (h : Nat)
  | PeekMessageW
  | TranslateMessage (m : Msg)
  | DispatchMessageW (m : Msg)
  | FillRect (r : Rect) (brush : Nat)
  | InvalidateRect (hwnd : Nat)
  | PostQuitMessage
  | DefWindowProcW (m : Msg)
  | KillTimer (hwnd id : Nat)
  | DestroyWindow (hwnd : Nat)
  | DeleteObject (slot : GdiSlot) (h : Nat)
  | DeleteImage (p : Nat)
  | GdiplusShutdown (token : Nat)
  | CloseHandle (slot : HandleSlot) (h : Nat)
  deriving DecidableEq, Repr

/-! ## Animation and painting -/

/-- `progMargin` of `DrawSplash`. -/
def progMargin : Int := 40
/-- `progY` of `DrawSplash`. -/
def progY : Int := 245
/-- `progWidth = WINDOW_WIDTH - (progMargin * 2)`: the width of the track. -/
def progWidth : Int := WINDOW_WIDTH - (progMargin * 2)
/-- `barWidth = progWidth / 3` (C++ integer division). -/
def barWidth : Int := Int.tdiv progWidth 3
/-- `barX = progMargin + (g_progressPos % (progWidth + barWidth)) - barWidth`
(C++ remainder, which truncates towards zero). -/
def barX (pos : Int) : Int :=
  progMargin + Int.tmod pos (progWidth + barWidth) - barWidth

/-- Position of the highlight bar relative to the left end of the track. -/
def highlightOffset (pos : Int) : Int := barX pos - progMargin

/-- The rectangle `progFgRect` that `DrawSplash` fills with the foreground brush. -/
def progFgRect (pos : Int) : Rect :=
  { left := barX pos, top := progY, right := barX pos + barWidth,
    bottom := progY + PROGRESS_HEIGHT }

/-- `DrawSplash`: the fills that depend on the session state (background,
track, highlight bar); text, logo and border drawing do not touch the state. -/
def DrawSplash (s : Session) : List Call :=
  [ Call.FillRect { left := 0, top := 0, right := WINDOW_WIDTH, bottom := WINDOW_HEIGHT }
      s.g_bgBrush,
    Call.FillRect { left := progMargin, top := progY, right := WINDOW_WIDTH - progMargin,
                    bottom := progY + PROGRESS_HEIGHT } s.g_progressBgBrush,
    Call.FillRect (progFgRect s.g_progressPos) s.g_progressFgBrush ]

/-- `UpdateProgress`: advance the phase by 4 and reset it past `WINDOW_WIDTH * 2`.
The phase is an `int` in the source; it never leaves `[0, 724]` once it is in
that range, so the addition is taken in the integers. -/
def UpdateProgress (s : Session) : Session × List Call :=
  let pos := s.g_progressPos + 4
  let pos := if pos > WINDOW_WIDTH * 2 then 0 else pos
  ({ s with g_progressPos := pos }, [Call.InvalidateRect s.g_hwnd])

/-- `STATUS_MESSAGES[i]`; an index outside the table is an out-of-bounds read
in the source and is given the empty string here. -/
def statusMessageAt (i : Int) : String :=
  if 0 ≤ i then STATUS_MESSAGES.getD i.toNat "" else ""

/-- `WndProc`: the window procedure of the splash window. -/
def WndProc (s : Session) (m : Msg) : Session × List Call :=
  if m.message = WM_PAINT then
    (s, DrawSplash s)
  else if m.message = WM_TIMER then
    if m.wParam = 1 then
      UpdateProgress s
    else if m.wParam = 2 then
      let idx := Int.tmod (s.g_statusIndex + 1) STATUS_COUNT
      ({ s with g_statusIndex := idx, g_statusText := statusMessageAt idx },
       [Call.InvalidateRect m.hwnd])
    else
      (s, [])
  else if m.message = WM_DESTROY then
    (s, [Call.PostQuitMessage])
  else
    (s, [Call.DefWindowProcW m])

/-- The fast timer tick delivered to the splash window. -/
def fastTick (s : Session) : Msg := { hwnd := s.g_hwnd, message := WM_TIMER, wParam := 1 }
/-- The slow timer tick delivered to the splash window. -/
def slowTick (s : Session) : Msg := { hwnd := s.g_hwnd, message := WM_TIMER, wParam := 2 }

/-- Deliver a sequence of messages to `WndProc`, one after the other. -/
def deliver (s : Session) : List Msg → Session
  | [] => s
  | m :: ms => deliver (WndProc s m).1 ms

/-- Whether a message is a slow-timer tick (`WM_TIMER` with identifier 2). -/
def isSlowTick (m : Msg) : Bool := m.message = WM_TIMER && m.wParam = 2

/-! ## Teardown -/

/-- Sequencing: run `f` on the state left by `r` and append its calls. -/
def andThen (r : Session × List Call) (f : Session → Session × List Call) :
    Session × List Call :=
  ((f r.1).1, r.2 ++ (f r.1).2)

/-- `if (g_titleFont) { DeleteObject(g_titleFont); g_titleFont = NULL; }` -/
def deleteTitleFont (s : Session) : Session × List Call :=
  if s.g_titleFont ≠ 0 then
    ({ s with g_titleFont := 0 }, [Call.DeleteObject GdiSlot.titleFont s.g_titleFont])
  else (s, [])

/-- `if (g_subFont) { DeleteObject(g_subFont); g_subFont = NULL; }` -/
def deleteSubFont (s : Session) : Session × List Call :=
  if s.g_subFont ≠ 0 then
    ({ s with g_subFont := 0 }, [Call.DeleteObject GdiSlot.subFont s.g_subFont])
  else (s, [])

/-- `if (g_statusFont) { DeleteObject(g_statusFont); g_statusFont = NULL; }` -/
def deleteStatusFont (s : Session) : Session × List Call :=
  if s.g_statusFont ≠ 0 then
    ({ s with g_statusFont := 0 }, [Call.DeleteObject GdiSlot.statusFont s.g_statusFont])
  else (s, [])

/-- `if (g_bgBrush) { DeleteObject(g_bgBrush); g_bgBrush = NULL; }` -/
def deleteBgBrush (s : Session) : Session × List Call :=
  if s.g_bgBrush ≠ 0 then
    ({ s with g_bgBrush := 0 }, [Call.DeleteObject GdiSlot.bgBrush s.g_bgBrush])
  else (s, [])

/-- `if (g_progressBgBrush) { DeleteObject(g_progressBgBrush); g_progressBgBrush = NULL; }` -/
def deleteProgressBgBrush (s : Session) : Session × List Call :=
  if s.g_progressBgBrush ≠ 0 then
    ({ s with g_progressBgBrush := 0 },
     [Call.DeleteObject GdiSlot.progressBgBrush s.g_progressBgBrush])
  else (s, [])

/-- `if (g_progressFgBrush) { DeleteObject(g_progressFgBrush); g_progressFgBrush = NULL; }` -/
def deleteProgressFgBrush (s : Session) : Session × List Call :=
  if s.g_progressFgBrush ≠ 0 then
    ({ s with g_progressFgBrush := 0 },
     [Call.DeleteObject GdiSlot.progressFgBrush s.g_progressFgBrush])
  else (s, [])

/-- `if (g_borderBrush) { DeleteObject(g_borderBrush); g_borderBrush = NULL; }` -/
def deleteBorderBrush (s : Session) : Session × List Call :=
  if s.g_borderBrush ≠ 0 then
    ({ s with g_borderBrush := 0 }, [Call.DeleteObject GdiSlot.borderBrush s.g_borderBrush])
  else (s, [])

/-- `CleanupGdiObjects`: the seven guarded deletions, in source order. -/
def CleanupGdiObjects (s : Session) : Session × List Call :=
  andThen (andThen (andThen (andThen (andThen (andThen (deleteTitleFont s)
    deleteSubFont) deleteStatusFont) deleteBgBrush) deleteProgressBgBrush)
    deleteProgressFgBrush) deleteBorderBrush

/-- `if (g_hwnd) { KillTimer(g_hwnd, 1); KillTimer(g_hwnd, 2); DestroyWindow(g_hwnd);
g_hwnd = NULL; }` -/
def destroySplashWindow (s : Session) : Session × List Call :=
  if s.g_hwnd ≠ 0 then
    ({ s with g_hwnd := 0 },
     [Call.KillTimer s.g_hwnd 1, Call.KillTimer s.g_hwnd 2, Call.DestroyWindow s.g_hwnd])
  else (s, [])

/-- `if (g_logoImage) { delete g_logoImage; g_logoImage = NULL; }` -/
def deleteLogoImage (s : Session) : Session × List Call :=
  if s.g_logoImage ≠ 0 then
    ({ s with g_logoImage := 0 }, [Call.DeleteImage s.g_logoImage])
  else (s, [])

/-- `if (g_gdiplusToken) { GdiplusShutdown(g_gdiplusToken); g_gdiplusToken = 0; }` -/
def shutdownGdiplus (s : Session) : Session × List Call :=
  if s.g_gdiplusToken ≠ 0 then
    ({ s with g_gdiplusToken := 0 }, [Call.GdiplusShutdown s.g_gdiplusToken])
  else (s, [])

/-- `if (g_readyEvent) { CloseHandle(g_readyEvent); g_readyEvent = NULL; }` -/
def closeReadyEvent (s : Session) : Session × List Call :=
  if s.g_readyEvent ≠ 0 then
    ({ s with g_readyEvent := 0 }, [Call.CloseHandle HandleSlot.readyEvent s.g_readyEvent])
  else (s, [])

/-- `if (g_appProcess) { CloseHandle(g_appProcess); g_appProcess = NULL; }` -/
def closeAppProcess (s : Session) : Session × List Call :=
  if s.g_appProcess ≠ 0 then
    ({ s with g_appProcess := 0 }, [Call.CloseHandle HandleSlot.appProcess s.g_appProcess])
  else (s, [])

/-- `Cleanup`: window and timers, cached GDI objects, logo, GDI+, ready event,
child-process handle, in source order. -/
def Cleanup (s : Session) : Session × List Call :=
  andThen (andThen (andThen (andThen (andThen (destroySplashWindow s)
    CleanupGdiObjects) deleteLogoImage) shutdownGdiplus) closeReadyEvent) closeAppProcess

/-- The resource a call releases, if it releases one.  The two `KillTimer`
calls and `DestroyWindow` release three different resources of the window. -/
inductive Resource
  | timer (id : Nat)
  | window
  | gdi (slot : GdiSlot)
  | logo
  | gdiplus
  | handle (slot : HandleSlot)
  deriving DecidableEq, Repr

/-- The resource released by a call (`none` for calls that release nothing). -/
def Call.released : Call → Option Resource
  | Call.KillTimer _ id => some (Resource.timer id)
  | Call.DestroyWindow _ => some Resource.window
  | Call.DeleteObject slot _ => some (Resource.gdi slot)
  | Call.DeleteImage _ => some Resource.logo
  | Call.GdiplusShutdown _ => some Resource.gdiplus
  | Call.CloseHandle slot _ => some (Resource.handle slot)
  | _ => none

/-- The resources released by a list of calls, in order. -/
def releasedBy (cs : List Call) : List Resource := cs.filterMap Call.released

/-! ## Child launch -/

/-- `LaunchMainApp`: `ok` is the result of `CreateProcessW`, `hProcess` and
`hThread` the handles it hands back in `PROCESS_INFORMATION`. -/
def LaunchMainApp (s : Session) (ok : Bool) (hProcess hThread : Nat) :
    Bool × Session × List Call :=
  if !ok then
    (false, s, [Call.CreateProcessW])
  else
    (true, { s with g_appProcess := hProcess },
     [Call.CreateProcessW, Call.CloseHandle HandleSlot.hThread hThread])

/-! ## The coordinator loop -/

/-- What the child process is doing when it is polled. -/
inductive ChildStatus
  | running
  | exited (code : Nat)
  deriving DecidableEq, Repr

/-- What the operating system answers during one iteration of the main loop. -/
structure IterObs where
  /-- Value returned by `MsgWaitForMultipleObjects`. -/
  waitResult : Nat
  /-- The ready event is already set when the bounded wait begins. -/
  signalBefore : Bool
  /-- Some process sets the ready event while the launcher waits. -/
  signalDuring : Bool
  /-- Whether `GetExitCodeProcess` succeeds. -/
  exitQueryOk : Bool
  /-- State of the child process when it is polled. -/
  child : ChildStatus
  /-- Value returned by `GetTickCount` in the time-out check. -/
  now : Nat
  /-- The messages successive `PeekMessageW` calls find in the queue. -/
  queue : List Msg
  deriving DecidableEq, Repr

/-- State of the ready event when the iteration re-checks it.  The event is
created manual-reset (`CreateEventW(NULL, TRUE, FALSE, ...)`) and nothing in
the source resets it, so it is set if it was set before the wait or was set
during it. -/
def IterObs.signalSet (o : IterObs) : Bool := o.signalBefore || o.signalDuring

/-- `WaitForSingleObject(h, 0)` on an event handle: `WAIT_FAILED` on a null
handle, `WAIT_OBJECT_0` when the event is set, `WAIT_TIMEOUT` otherwise. -/
def WaitForSingleObject (h : Nat) (signalled : Bool) : Nat :=
  if h = 0 then WAIT_FAILED else if signalled then WAIT_OBJECT_0 else WAIT_TIMEOUT

/-- `GetExitCodeProcess`: the returned `BOOL` and the value left in `exitCode`
(initialised to `0` by the caller, `STILL_ACTIVE` for a running process). -/
def GetExitCodeProcess (ok : Bool) (child : ChildStatus) : Bool × Nat :=
  if ok then
    (true, match child with
           | ChildStatus.running => STILL_ACTIVE
           | ChildStatus.exited code => code)
  else (false, 0)

/-- Subtraction of two `DWORD`s, modulo `2 ^ 32`. -/
def dwordSub (a b : Nat) : Nat := (a % DWORD_MOD + DWORD_MOD - b % DWORD_MOD) % DWORD_MOD

/-- The exit test `GetExitCodeProcess(g_appProcess, &exitCode) && exitCode != STILL_ACTIVE`. -/
def childExitDetected (o : IterObs) : Bool :=
  (GetExitCodeProcess o.exitQueryOk o.child).1 &&
    decide ((GetExitCodeProcess o.exitQueryOk o.child).2 ≠ STILL_ACTIVE)

/-- The time-out test `(GetTickCount() - startTime) > MAX_WAIT_MS`. -/
def timedOut (startTime now : Nat) : Bool := decide (dwordSub now startTime > MAX_WAIT_MS)

/-- `DispatchMessageW`: a message addressed to the splash window reaches
`WndProc`; a message for any other window leaves the session alone. -/
def DispatchMessageW (s : Session) (m : Msg) : Session × List Call :=
  if m.hwnd = s.g_hwnd then WndProc s m else (s, [])

/-- The inner loop `while (PeekMessageW(&msg, NULL, 0, 0, PM_REMOVE)) { ... }`.
Returns the session, the calls made and the messages left in the queue. -/
def drainMessages (s : Session) : List Msg → Session × List Call × List Msg
  | [] => (s, [Call.PeekMessageW], [])
  | m :: q =>
    if m.message = WM_QUIT then
      ({ s with g_isClosing := true }, [Call.PeekMessageW], q)
    else
      let r := DispatchMessageW s m
      let d := drainMessages r.1 q
      (d.1,
       Call.PeekMessageW :: Call.TranslateMessage m :: Call.DispatchMessageW m :: (r.2 ++ d.2.1),
       d.2.2)

/-- One pass through the body of `while (!g_isClosing) { ... }`. -/
def loopBody (startTime : Nat) (s : Session) (o : IterObs) : Session × List Call :=
  let waited := [Call.MsgWaitForMultipleObjects, Call.WaitForSingleObject s.g_readyEvent]
  if WaitForSingleObject s.g_readyEvent o.signalSet = WAIT_OBJECT_0 then
    ({ s with g_isClosing := true }, waited)
  else
    let polled :=
      waited ++ (if s.g_appProcess ≠ 0 then [Call.GetExitCodeProcess s.g_appProcess] else [])
    if s.g_appProcess ≠ 0 ∧ childExitDetected o = true then
      ({ s with g_isClosing := true }, polled)
    else
      let timed := polled ++ [Call.GetTickCount]
      if timedOut startTime o.now = true then
        ({ s with g_isClosing := true }, timed)
      else if o.waitResult = WAIT_OBJECT_0 + 1 then
        ((drainMessages s o.queue).1, timed ++ (drainMessages s o.queue).2.1)
      else
        (s, timed)

/-- The main loop `while (!g_isClosing)`, fed one observation per iteration.
`none` when the observations run out before the loop has ended. -/
def coordinatorLoop (startTime : Nat) : Session → List IterObs → Option (Session × List Call)
  | s, [] => if s.g_isClosing then some (s, []) else none
  | s, o :: rest =>
    if s.g_isClosing then some (s, [])
    else
      match coordinatorLoop startTime (loopBody startTime s o).1 rest with
      | none => none
      | some r => some (r.1, (loopBody startTime s o).2 ++ r.2)

/-! ## Program entry -/

/-- What the operating system answers during startup, and during the loop. -/
structure StartupEnv where
  /-- Directory of the executable, from `GetExeDirectory`. -/
  exeDir : String
  /-- Handle returned by `CreateMutexW`. -/
  mutex : Nat
  /-- Value of `GetLastError()` right after `CreateMutexW`. -/
  lastError : Nat
  /-- Handle returned by `OpenEventW` (second instance only). -/
  existingEvent : Nat
  /-- Handle returned by `CreateEventW`. -/
  readyEvent : Nat
  /-- Token written by `GdiplusStartup`. -/
  gdiplusToken : Nat
  /-- Pointer returned by `Gdiplus::Image::FromFile`. -/
  logoImage : Nat
  titleFont : Nat
  subFont : Nat
  statusFont : Nat
  bgBrush : Nat
  progressBgBrush : Nat
  progressFgBrush : Nat
  borderBrush : Nat
  /-- Handle returned by `CreateWindowExW`. -/
  hwnd : Nat
  /-- Result of `CreateProcessW`. -/
  createProcessOk : Bool
  hProcess : Nat
  hThread : Nat
  /-- Value of `GetTickCount()` before the loop. -/
  startTime : Nat
  /-- One observation per loop iteration. -/
  iterations : List IterObs
  deriving DecidableEq, Repr

/-- `if (mutex) CloseHandle(mutex);` -/
def closeMutex (mutex : Nat) : List Call :=
  if mutex ≠ 0 then [Call.CloseHandle HandleSlot.mutex mutex] else []

/-- `LoadLogo` followed by `InitGdiObjects`: the globals they assign. -/
def InitGdiObjects (s : Session) (e : StartupEnv) : Session :=
  { s with
    g_titleFont := e.titleFont, g_subFont := e.subFont, g_statusFont := e.statusFont,
    g_bgBrush := e.bgBrush, g_progressBgBrush := e.progressBgBrush,
    g_progressFgBrush := e.progressFgBrush, g_borderBrush := e.borderBrush }

/-- Result of a finished run of `wWinMain`. -/
structure Outcome where
  exitCode : Int
  session : Session
  calls : List Call
  deriving DecidableEq, Repr

/-- `wWinMain`.  `none` when the loop has not ended within the given observations. -/
def wWinMain (e : StartupEnv) : Option Outcome :=
  let s0 : Session := { Session.initial with g_exeDir := e.exeDir }
  if e.lastError = ERROR_ALREADY_EXISTS then
    some { exitCode := 0, session := s0,
           calls := [Call.CreateMutexW] ++ closeMutex e.mutex ++ [Call.OpenEventW] ++
             (if e.existingEvent ≠ 0 then
                [Call.SetEvent e.existingEvent,
                 Call.CloseHandle HandleSlot.existingEvent e.existingEvent]
              else []) }
  else
    let s1 : Session := { s0 with g_readyEvent := e.readyEvent }
    let c1 := [Call.CreateMutexW, Call.CreateEventW]
    if s1.g_readyEvent = 0 then
      some { exitCode := 1, session := s1, calls := c1 ++ closeMutex e.mutex }
    else
      let s2 : Session :=
        InitGdiObjects { s1 with g_gdiplusToken := e.gdiplusToken, g_logoImage := e.logoImage } e
      let s3 : Session := { s2 with g_hwnd := e.hwnd }
      let c3 := c1 ++ [Call.GdiplusStartup, Call.LoadLogo, Call.InitGdiObjects,
        Call.RegisterClassExW, Call.CreateWindowExW]
      if s3.g_hwnd = 0 then
        some { exitCode := 1, session := (Cleanup s3).1,
               calls := c3 ++ (Cleanup s3).2 ++ closeMutex e.mutex }
      else
        let c4 := c3 ++ [Call.ShowWindow s3.g_hwnd, Call.UpdateWindow s3.g_hwnd]
        let l := LaunchMainApp s3 e.createProcessOk e.hProcess e.hThread
        if !l.1 then
          some { exitCode := 1, session := (Cleanup l.2.1).1,
                 calls := c4 ++ l.2.2 ++ [Call.MessageBoxW] ++ (Cleanup l.2.1).2 ++
                   closeMutex e.mutex }
        else
          let c5 := c4 ++ l.2.2 ++
            [Call.SetTimer l.2.1.g_hwnd 1 PROGRESS_INTERVAL, Call.SetTimer l.2.1.g_hwnd 2 4000,
             Call.GetTickCount]
          match coordinatorLoop e.startTime l.2.1 e.iterations with
          | none => none
          | some r =>
            some { exitCode := 0, session := (Cleanup r.1).1,
                   calls := c5 ++ r.2 ++ (Cleanup r.1).2 ++ closeMutex e.mutex }

/-! ## Sample sessions and observations -/

/-- A session as it is when the main loop runs: window, ready event and child
process handle are all valid. -/
def runningSession : Session :=
  { Session.initial with g_hwnd := 0x10, g_readyEvent := 0x20, g_appProcess := 0x30 }

/-- An iteration in which nothing happens: the wait times out, the event is
unset, the child is running, no time has passed and the queue is empty. -/
def quietObs : IterObs :=
  { waitResult := WAIT_TIMEOUT, signalBefore := false, signalDuring := false,
    exitQueryOk := true, child := ChildStatus.running, now := 0, queue := [] }

/-- An iteration in which the child is found exited with code `c`. -/
def exitedObs (c : Nat) : IterObs := { quietObs with child := ChildStatus.exited c }

/-- An iteration in which the tick counter reads `now`. -/
def tickObs (now : Nat) : IterObs := { quietObs with now := now }

/-- An iteration woken by pending messages, with the given queue. -/
def messageObs (q : List Msg) : IterObs :=
  { quietObs with waitResult := WAIT_OBJECT_0 + 1, queue := q }

/-- A quit message. -/
def quitMsg : Msg := { hwnd := 0, message := WM_QUIT, wParam := 0 }

/-- A startup in which every call succeeds, for a first instance. -/
def goodStartup (iterations : List IterObs) : StartupEnv :=
  { exeDir := "C:/Apps/CopyPaste", mutex := 0x08, lastError := 0, existingEvent := 0,
    readyEvent := 0x20, gdiplusToken := 1, logoImage := 0x40,
    titleFont := 0x51, subFont := 0x52, statusFont := 0x53, bgBrush := 0x54,
    progressBgBrush := 0x55, progressFgBrush := 0x56, borderBrush := 0x57,
    hwnd := 0x10, createProcessOk := true, hProcess := 0x30, hThread := 0x31,
    startTime := 0, iterations := iterations }

/-! ## Predicates used in the statements -/

/-- The values the animation phase takes: multiples of 4 between 0 and 720. -/
def PhaseInv (p : Int) : Prop := 0 ≤ p ∧ p ≤ 720 ∧ p % 4 = 0

/-- The status index and text after `n` slow ticks. -/
def StatusInv (s : Session) (n : Nat) : Prop :=
  s.g_statusIndex = ((n % 6 : Nat) : Int) ∧ s.g_statusText = STATUS_MESSAGES.getD (n % 6) ""

/-- The messages handed to `DispatchMessageW` in a list of calls, in order. -/
def dispatchedMessages (cs : List Call) : List Msg :=
  cs.filterMap (fun c => match c with
    | Call.DispatchMessageW m => some m
    | _ => none)

/-- Dispatch a list of messages one after the other. -/
def dispatchAll (s : Session) : List Msg → Session
  | [] => s
  | m :: ms => dispatchAll (DispatchMessageW s m).1 ms

/-- A session with every handle that `Cleanup` releases set to null. -/
def Session.nulled (s : Session) : Session :=
  { s with
    g_hwnd := 0, g_titleFont := 0, g_subFont := 0, g_statusFont := 0, g_bgBrush := 0,
    g_progressBgBrush := 0, g_progressFgBrush := 0, g_borderBrush := 0, g_logoImage := 0,
    g_gdiplusToken := 0, g_readyEvent := 0, g_appProcess := 0 }

/-- The resources `Cleanup` can release, in the order in which it releases them. -/
def cleanupOrder : List Resource :=
  [ Resource.timer 1, Resource.timer 2, Resource.window,
    Resource.gdi GdiSlot.titleFont, Resource.gdi GdiSlot.subFont,
    Resource.gdi GdiSlot.statusFont, Resource.gdi GdiSlot.bgBrush,
    Resource.gdi GdiSlot.progressBgBrush, Resource.gdi GdiSlot.progressFgBrush,
    Resource.gdi GdiSlot.borderBrush, Resource.logo, Resource.gdiplus,
    Resource.handle HandleSlot.readyEvent, Resource.handle HandleSlot.appProcess ]

/-- Every release `Cleanup` can make on a session, in source order. -/
def allReleaseCalls (s : Session) : List Call :=
  [ Call.KillTimer s.g_hwnd 1, Call.KillTimer s.g_hwnd 2, Call.DestroyWindow s.g_hwnd,
    Call.DeleteObject GdiSlot.titleFont s.g_titleFont,
    Call.DeleteObject GdiSlot.subFont s.g_subFont,
    Call.DeleteObject GdiSlot.statusFont s.g_statusFont,
    Call.DeleteObject GdiSlot.bgBrush s.g_bgBrush,
    Call.DeleteObject GdiSlot.progressBgBrush s.g_progressBgBrush,
    Call.DeleteObject GdiSlot.progressFgBrush s.g_progressFgBrush,
    Call.DeleteObject GdiSlot.borderBrush s.g_borderBrush,
    Call.DeleteImage s.g_logoImage, Call.GdiplusShutdown s.g_gdiplusToken,
    Call.CloseHandle HandleSlot.readyEvent s.g_readyEvent,
    Call.CloseHandle HandleSlot.appProcess s.g_appProcess ]

/-- The session when `wWinMain` has created the window: event, GDI+ token,
logo, cached GDI objects and window handle are as the startup calls returned them. -/
def sessionWithWindow (e : StartupEnv) : Session :=
  { InitGdiObjects
      { Session.initial with
        g_exeDir := e.exeDir, g_readyEvent := e.readyEvent,
        g_gdiplusToken := e.gdiplusToken, g_logoImage := e.logoImage } e with
    g_hwnd := e.hwnd }

/-- The session when `wWinMain` enters the main loop. -/
def loopEntry (e : StartupEnv) : Session :=
  { sessionWithWindow e with g_appProcess := e.hProcess }

/-- The calls `wWinMain` makes up to and including `CreateWindowExW`. -/
def windowCalls : List Call :=
  [ Call.CreateMutexW, Call.CreateEventW, Call.GdiplusStartup, Call.LoadLogo,
    Call.InitGdiObjects, Call.RegisterClassExW, Call.CreateWindowExW ]

/-- The reasons for which one loop iteration sets `g_isClosing`: the ready
event is seen set, the child is seen to have exited, the time-out has elapsed,
or a quit message is found while draining the queue. -/
def dismisses (startTime : Nat) (s : Session) (o : IterObs) : Bool :=
  decide (WaitForSingleObject s.g_readyEvent o.signalSet = WAIT_OBJECT_0) ||
  (decide (s.g_appProcess ≠ 0) && childExitDetected o) ||
  timedOut startTime o.now ||
  (decide (o.waitResult = WAIT_OBJECT_0 + 1) && o.queue.any (fun m => decide (m.message = WM_QUIT)))

/-- The readiness event could not be created. -/
def eventFails (e : StartupEnv) : Prop := e.readyEvent = 0
/-- The readiness event was created and the window could not be. -/
def windowFails (e : StartupEnv) : Prop := e.readyEvent ≠ 0 ∧ e.hwnd = 0
/-- Event and window were created and the child could not be launched. -/
def launchFails (e : StartupEnv) : Prop :=
  e.readyEvent ≠ 0 ∧ e.hwnd ≠ 0 ∧ e.createProcessOk = false
/-- A fatal startup failure: one of the three above. -/
def fatalStartup (e : StartupEnv) : Prop := eventFails e ∨ windowFails e ∨ launchFails e

/-! ## Animation phase -/

theorem WndProc_phase (s : Session) (m : Msg) :
    (WndProc s m).1.g_progressPos =
      if m.message = WM_TIMER ∧ m.wParam = 1 then
        (if s.g_progressPos + 4 > 720 then 0 else s.g_progressPos + 4)
      else s.g_progressPos := by
  unfold WndProc UpdateProgress
  simp only [WM_PAINT, WM_TIMER, WM_DESTROY, WINDOW_WIDTH]
  split_ifs <;> simp_all

theorem WndProc_phaseInv (s : Session) (m : Msg) (h : PhaseInv s.g_progressPos) :
    PhaseInv (WndProc s m).1.g_progressPos := by
  rw [WndProc_phase]
  unfold PhaseInv at *
  split_ifs <;> omega

theorem deliver_phaseInv (msgs : List Msg) :
    ∀ s : Session, PhaseInv s.g_progressPos → PhaseInv (deliver s msgs).g_progressPos := by
  induction msgs with
  | nil => intro s h; exact h
  | cons m ms ih => intro s h; exact ih _ (WndProc_phaseInv s m h)

theorem progWidth_eq : progWidth = 280 := by decide
theorem barWidth_eq : barWidth = 93 := by decide

theorem highlightOffset_eq (p : Int) (h : 0 ≤ p) :
    highlightOffset p = p % 373 - 93 := by
  unfold highlightOffset barX
  rw [progWidth_eq, barWidth_eq, Int.tmod_eq_emod h (by norm_num)]
  omega

/-! ## Status rotation -/

theorem WndProc_status (s : Session) (m : Msg) :
    (WndProc s m).1.g_statusIndex =
        (if isSlowTick m = true then Int.tmod (s.g_statusIndex + 1) STATUS_COUNT
         else s.g_statusIndex) ∧
      (WndProc s m).1.g_statusText =
        (if isSlowTick m = true then
           statusMessageAt (Int.tmod (s.g_statusIndex + 1) STATUS_COUNT)
         else s.g_statusText) := by
  unfold WndProc UpdateProgress isSlowTick
  simp only [WM_PAINT, WM_TIMER, WM_DESTROY]
  split_ifs <;> simp_all

theorem WndProc_statusInv (s : Session) (m : Msg) (n : Nat) (h : StatusInv s n) :
    StatusInv (WndProc s m).1 (n + if isSlowTick m = true then 1 else 0) := by
  obtain ⟨hi, ht⟩ := h
  obtain ⟨h1, h2⟩ := WndProc_status s m
  unfold StatusInv
  rw [h1, h2]
  by_cases hs : isSlowTick m = true
  · simp only [hs, if_true]
    have hidx : Int.tmod (s.g_statusIndex + 1) STATUS_COUNT = (((n + 1) % 6 : Nat) : Int) := by
      rw [hi, STATUS_COUNT, Int.tmod_eq_emod (by omega) (by norm_num)]
      omega
    rw [hidx]
    refine ⟨rfl, ?_⟩
    unfold statusMessageAt
    rw [if_pos (Int.ofNat_nonneg _), Int.toNat_ofNat]
  · simp only [if_neg hs, Nat.add_zero]
    exact ⟨hi, ht⟩

theorem deliver_statusInv (msgs : List Msg) :
    ∀ (s : Session) (n : Nat), StatusInv s n →
      StatusInv (deliver s msgs) (n + msgs.countP isSlowTick) := by
  induction msgs with
  | nil => intro s n h; simpa using h
  | cons m ms ih =>
    intro s n h
    have h1 := ih _ _ (WndProc_statusInv s m n h)
    have e : n + (if isSlowTick m = true then 1 else 0) + ms.countP isSlowTick
        = n + (m :: ms).countP isSlowTick := by
      rw [List.countP_cons]; omega
    rw [e] at h1
    exact h1

theorem statusMessages_lookup (k : Nat) (h : k < 6) :
    STATUS_MESSAGES.get? k = some (STATUS_MESSAGES.getD k "") := by
  interval_cases k <;> rfl

/-- C7: for every phase the counter takes after any sequence of window
messages (fast ticks among them) from a session whose phase is 0, the
highlight position of `DrawSplash`, `(p mod (trackWidth + barWidth)) - barWidth`
with `trackWidth = 280` and `barWidth = 93`, lies in `[-barWidth, trackWidth]`. -/
theorem highlight_position_within_track (s0 : Session) (msgs : List Msg)
    (h0 : s0.g_progressPos = 0) :
    progWidth = 280 ∧ barWidth = 93 ∧
    (progFgRect (deliver s0 msgs).g_progressPos).left - progMargin =
      highlightOffset (deliver s0 msgs).g_progressPos ∧
    highlightOffset (deliver s0 msgs).g_progressPos =
      (deliver s0 msgs).g_progressPos % (progWidth + barWidth) - barWidth ∧
    -barWidth ≤ highlightOffset (deliver s0 msgs).g_progressPos ∧
    highlightOffset (deliver s0 msgs).g_progressPos ≤ progWidth := by
  have hinv : PhaseInv (deliver s0 msgs).g_progressPos :=
    deliver_phaseInv msgs s0 (by rw [h0]; exact ⟨le_refl _, by norm_num, by norm_num⟩)
  obtain ⟨hlo, _, _⟩ := hinv
  have ho := highlightOffset_eq _ hlo
  refine ⟨progWidth_eq, barWidth_eq, rfl, ?_, ?_, ?_⟩
  · rw [ho, progWidth_eq, barWidth_eq]; norm_num
  · rw [ho, barWidth_eq]; omega
  · rw [ho, progWidth_eq]; omega

/-- Witness for C7: two fast ticks from the initial session. -/
theorem highlight_position_within_track_witness :
    Session.initial.g_progressPos = 0 ∧
    -barWidth ≤ highlightOffset
      (deliver Session.initial [fastTick Session.initial, fastTick Session.initial]).g_progressPos ∧
    highlightOffset
      (deliver Session.initial [fastTick Session.initial, fastTick Session.initial]).g_progressPos
      ≤ progWidth :=
  ⟨rfl, (highlight_position_within_track Session.initial _ rfl).2.2.2.2⟩

/-- C8: from a session with status index 0 and text "Starting...", after any
sequence of window messages containing `n` slow ticks the status index is
`n mod 6` and the status text is `STATUS_MESSAGES[n mod 6]`; the index stays
in `[0, 6)`, the table has six entries, and a fast tick leaves index and text
unchanged. -/
theorem status_rotation (s0 : Session) (msgs : List Msg)
    (hi : s0.g_statusIndex = 0) (ht : s0.g_statusText = "Starting...") :
    (deliver s0 msgs).g_statusIndex = ((msgs.countP isSlowTick % 6 : Nat) : Int) ∧
    STATUS_MESSAGES.get? (msgs.countP isSlowTick % 6) = some (deliver s0 msgs).g_statusText ∧
    0 ≤ (deliver s0 msgs).g_statusIndex ∧ (deliver s0 msgs).g_statusIndex < STATUS_COUNT ∧
    STATUS_MESSAGES.length = 6 ∧
    (∀ s : Session, (WndProc s (fastTick s)).1.g_statusIndex = s.g_statusIndex ∧
      (WndProc s (fastTick s)).1.g_statusText = s.g_statusText) := by
  have h := deliver_statusInv msgs s0 0 ⟨by rw [hi]; rfl, by rw [ht]; rfl⟩
  rw [Nat.zero_add] at h
  obtain ⟨h1, h2⟩ := h
  have hlt : msgs.countP isSlowTick % 6 < 6 := Nat.mod_lt _ (by norm_num)
  refine ⟨h1, ?_, ?_, ?_, rfl, ?_⟩
  · rw [h2]; exact statusMessages_lookup _ hlt
  · rw [h1]; exact Int.ofNat_nonneg _
  · rw [h1, STATUS_COUNT]; omega
  · intro s
    have hs := WndProc_status s (fastTick s)
    have hf : isSlowTick (fastTick s) = false := by
      simp [isSlowTick, fastTick]
    rw [hf] at hs
    simpa using hs

/-- Witness for C8: seven slow ticks bring the initial session back to message 1. -/
theorem status_rotation_witness :
    Session.initial.g_statusIndex = 0 ∧ Session.initial.g_statusText = "Starting..." ∧
    (deliver Session.initial (List.replicate 7 (slowTick Session.initial))).g_statusIndex
      = ((((List.replicate 7 (slowTick Session.initial)).countP isSlowTick % 6 : Nat)) : Int) :=
  ⟨rfl, rfl, (status_rotation Session.initial _ rfl rfl).1⟩

set_option maxRecDepth 100000 in
/-- C10 (as stated): at phase 720, reached after 180 fast ticks, the next fast
tick does not advance the offset within the cycle by 4: the offset goes from
347 to 0 instead of 351. -/
theorem bar_jumps_at_phase_720 :
    (deliver Session.initial (List.replicate 180 (fastTick Session.initial))).g_progressPos
      = 720 ∧
    ¬ ((WndProc (deliver Session.initial (List.replicate 180 (fastTick Session.initial)))
          (fastTick (deliver Session.initial
            (List.replicate 180 (fastTick Session.initial))))).1.g_progressPos
          % (progWidth + barWidth)
        = ((deliver Session.initial
            (List.replicate 180 (fastTick Session.initial))).g_progressPos
            % (progWidth + barWidth) + 4) % (progWidth + barWidth)) := by
  decide

/-- C10 (amended): for every phase `p` reached from phase 0, one further fast
tick gives `p + 4`, except at `p = 720` where it gives 0; so the offset within
the cycle of length 373 advances by 4 modulo 373 at every phase other than 720,
and returns to 0 at phase 720.  The highlight position is that offset minus
`barWidth`. -/
theorem bar_advances_or_resets (s0 : Session) (msgs : List Msg)
    (h0 : s0.g_progressPos = 0) :
    (WndProc (deliver s0 msgs) (fastTick (deliver s0 msgs))).1.g_progressPos =
      (if (deliver s0 msgs).g_progressPos = 720 then 0
       else (deliver s0 msgs).g_progressPos + 4) ∧
    (WndProc (deliver s0 msgs) (fastTick (deliver s0 msgs))).1.g_progressPos
        % (progWidth + barWidth) =
      (if (deliver s0 msgs).g_progressPos = 720 then 0
       else ((deliver s0 msgs).g_progressPos % (progWidth + barWidth) + 4)
              % (progWidth + barWidth)) ∧
    highlightOffset (WndProc (deliver s0 msgs) (fastTick (deliver s0 msgs))).1.g_progressPos =
      (WndProc (deliver s0 msgs) (fastTick (deliver s0 msgs))).1.g_progressPos
        % (progWidth + barWidth) - barWidth := by
  have hinv : PhaseInv (deliver s0 msgs).g_progressPos :=
    deliver_phaseInv msgs s0 (by rw [h0]; exact ⟨le_refl _, by norm_num, by norm_num⟩)
  have hinv2 := WndProc_phaseInv (deliver s0 msgs) (fastTick (deliver s0 msgs)) hinv
  have hq := WndProc_phase (deliver s0 msgs) (fastTick (deliver s0 msgs))
  have hf : (fastTick (deliver s0 msgs)).message = WM_TIMER ∧
      (fastTick (deliver s0 msgs)).wParam = 1 := ⟨rfl, rfl⟩
  rw [if_pos hf] at hq
  obtain ⟨hlo, hhi, hmod⟩ := hinv
  have hstep : (WndProc (deliver s0 msgs) (fastTick (deliver s0 msgs))).1.g_progressPos =
      (if (deliver s0 msgs).g_progressPos = 720 then 0
       else (deliver s0 msgs).g_progressPos + 4) := by
    rw [hq]
    split_ifs <;> omega
  refine ⟨hstep, ?_, ?_⟩
  · rw [hstep, progWidth_eq, barWidth_eq]
    split_ifs <;> omega
  · rw [highlightOffset_eq _ hinv2.1, progWidth_eq, barWidth_eq]; norm_num

/-- Witness for C10 (amended): the first fast tick of the initial session. -/
theorem bar_advances_or_resets_witness :
    Session.initial.g_progressPos = 0 ∧
    (WndProc (deliver Session.initial []) (fastTick (deliver Session.initial []))).1.g_progressPos =
      (if (deliver Session.initial []).g_progressPos = 720 then 0
       else (deliver Session.initial []).g_progressPos + 4) :=
  ⟨rfl, (bar_advances_or_resets Session.initial [] rfl).1⟩

/-! ## Teardown -/

theorem andThen_fst (r : Session × List Call) (f : Session → Session × List Call) :
    (andThen r f).1 = (f r.1).1 := rfl

theorem andThen_snd (r : Session × List Call) (f : Session → Session × List Call) :
    (andThen r f).2 = r.2 ++ (f r.1).2 := rfl

theorem destroySplashWindow_fst (s : Session) :
    (destroySplashWindow s).1 = { s with g_hwnd := 0 } := by
  unfold destroySplashWindow
  split_ifs with h
  · rfl
  · cases s; simp only [ne_eq, not_not] at h; subst h; rfl

theorem deleteTitleFont_fst (s : Session) :
    (deleteTitleFont s).1 = { s with g_titleFont := 0 } := by
  unfold deleteTitleFont
  split_ifs with h
  · rfl
  · cases s; simp only [ne_eq, not_not] at h; subst h; rfl

theorem deleteSubFont_fst (s : Session) :
    (deleteSubFont s).1 = { s with g_subFont := 0 } := by
  unfold deleteSubFont
  split_ifs with h
  · rfl
  · cases s; simp only [ne_eq, not_not] at h; subst h; rfl

theorem deleteStatusFont_fst (s : Session) :
    (deleteStatusFont s).1 = { s with g_statusFont := 0 } := by
  unfold deleteStatusFont
  split_ifs with h
  · rfl
  · cases s; simp only [ne_eq, not_not] at h; subst h; rfl

theorem deleteBgBrush_fst (s : Session) :
    (deleteBgBrush s).1 = { s with g_bgBrush := 0 } := by
  unfold deleteBgBrush
  split_ifs with h
  · rfl
  · cases s; simp only [ne_eq, not_not] at h; subst h; rfl

theorem deleteProgressBgBrush_fst (s : Session) :
    (deleteProgressBgBrush s).1 = { s with g_progressBgBrush := 0 } := by
  unfold deleteProgressBgBrush
  split_ifs with h
  · rfl
  · cases s; simp only [ne_eq, not_not] at h; subst h; rfl

theorem deleteProgressFgBrush_fst (s : Session) :
    (deleteProgressFgBrush s).1 = { s with g_progressFgBrush := 0 } := by
  unfold deleteProgressFgBrush
  split_ifs with h
  · rfl
  · cases s; simp only [ne_eq, not_not] at h; subst h; rfl

theorem deleteBorderBrush_fst (s : Session) :
    (deleteBorderBrush s).1 = { s with g_borderBrush := 0 } := by
  unfold deleteBorderBrush
  split_ifs with h
  · rfl
  · cases s; simp only [ne_eq, not_not] at h; subst h; rfl

theorem deleteLogoImage_fst (s : Session) :
    (deleteLogoImage s).1 = { s with g_logoImage := 0 } := by
  unfold deleteLogoImage
  split_ifs with h
  · rfl
  · cases s; simp only [ne_eq, not_not] at h; subst h; rfl

theorem shutdownGdiplus_fst (s : Session) :
    (shutdownGdiplus s).1 = { s with g_gdiplusToken := 0 } := by
  unfold shutdownGdiplus
  split_ifs with h
  · rfl
  · cases s; simp only [ne_eq, not_not] at h; subst h; rfl

theorem closeReadyEvent_fst (s : Session) :
    (closeReadyEvent s).1 = { s with g_readyEvent := 0 } := by
  unfold closeReadyEvent
  split_ifs with h
  · rfl
  · cases s; simp only [ne_eq, not_not] at h; subst h; rfl

theorem closeAppProcess_fst (s : Session) :
    (closeAppProcess s).1 = { s with g_appProcess := 0 } := by
  unfold closeAppProcess
  split_ifs with h
  · rfl
  · cases s; simp only [ne_eq, not_not] at h; subst h; rfl

theorem CleanupGdiObjects_fst (s : Session) :
    (CleanupGdiObjects s).1 =
      { s with g_titleFont := 0, g_subFont := 0, g_statusFont := 0, g_bgBrush := 0,
               g_progressBgBrush := 0, g_progressFgBrush := 0, g_borderBrush := 0 } := by
  simp only [CleanupGdiObjects, andThen_fst, deleteTitleFont_fst, deleteSubFont_fst,
    deleteStatusFont_fst, deleteBgBrush_fst, deleteProgressBgBrush_fst,
    deleteProgressFgBrush_fst, deleteBorderBrush_fst]

theorem Cleanup_fst (s : Session) : (Cleanup s).1 = s.nulled := by
  simp only [Cleanup, andThen_fst, destroySplashWindow_fst, CleanupGdiObjects_fst,
    deleteLogoImage_fst, shutdownGdiplus_fst, closeReadyEvent_fst, closeAppProcess_fst,
    Session.nulled]

theorem CleanupGdiObjects_snd (s : Session) :
    (CleanupGdiObjects s).2 =
      (if s.g_titleFont ≠ 0 then [Call.DeleteObject GdiSlot.titleFont s.g_titleFont] else []) ++
      (if s.g_subFont ≠ 0 then [Call.DeleteObject GdiSlot.subFont s.g_subFont] else []) ++
      (if s.g_statusFont ≠ 0 then [Call.DeleteObject GdiSlot.statusFont s.g_statusFont]
       else []) ++
      (if s.g_bgBrush ≠ 0 then [Call.DeleteObject GdiSlot.bgBrush s.g_bgBrush] else []) ++
      (if s.g_progressBgBrush ≠ 0 then
         [Call.DeleteObject GdiSlot.progressBgBrush s.g_progressBgBrush] else []) ++
      (if s.g_progressFgBrush ≠ 0 then
         [Call.DeleteObject GdiSlot.progressFgBrush s.g_progressFgBrush] else []) ++
      (if s.g_borderBrush ≠ 0 then [Call.DeleteObject GdiSlot.borderBrush s.g_borderBrush]
       else []) := by
  simp only [CleanupGdiObjects, andThen_fst, andThen_snd, deleteTitleFont_fst,
    deleteSubFont_fst, deleteStatusFont_fst, deleteBgBrush_fst, deleteProgressBgBrush_fst,
    deleteProgressFgBrush_fst]
  simp only [deleteTitleFont, deleteSubFont, deleteStatusFont, deleteBgBrush,
    deleteProgressBgBrush, deleteProgressFgBrush, deleteBorderBrush, apply_ite Prod.snd]

/-- The calls `Cleanup` makes: each release is made exactly when its handle is not null. -/
theorem Cleanup_snd (s : Session) :
    (Cleanup s).2 =
      (if s.g_hwnd ≠ 0 then
         [Call.KillTimer s.g_hwnd 1, Call.KillTimer s.g_hwnd 2, Call.DestroyWindow s.g_hwnd]
       else []) ++
      (CleanupGdiObjects s).2 ++
      (if s.g_logoImage ≠ 0 then [Call.DeleteImage s.g_logoImage] else []) ++
      (if s.g_gdiplusToken ≠ 0 then [Call.GdiplusShutdown s.g_gdiplusToken] else []) ++
      (if s.g_readyEvent ≠ 0 then [Call.CloseHandle HandleSlot.readyEvent s.g_readyEvent]
       else []) ++
      (if s.g_appProcess ≠ 0 then [Call.CloseHandle HandleSlot.appProcess s.g_appProcess]
       else []) := by
  simp only [Cleanup, andThen_fst, andThen_snd, destroySplashWindow_fst,
    CleanupGdiObjects_fst, deleteLogoImage_fst, shutdownGdiplus_fst, closeReadyEvent_fst,
    CleanupGdiObjects_snd]
  simp only [destroySplashWindow, deleteLogoImage, shutdownGdiplus, closeReadyEvent,
    closeAppProcess, apply_ite Prod.snd]

theorem Cleanup_nulled (s : Session) : (Cleanup s.nulled).2 = [] := by
  rw [Cleanup_snd, CleanupGdiObjects_snd]
  simp [Session.nulled]

theorem nulled_nulled (s : Session) : s.nulled.nulled = s.nulled := rfl

theorem releasedBy_append (a b : List Call) :
    releasedBy (a ++ b) = releasedBy a ++ releasedBy b := by
  simp [releasedBy, List.filterMap_append]

theorem ite_sublist (c : Prop) [Decidable c] (cs : List Call) :
    List.Sublist (if c then cs else []) cs := by
  split_ifs
  · exact List.Sublist.refl _
  · exact List.nil_sublist _

theorem Cleanup_calls_sublist (s : Session) :
    List.Sublist (Cleanup s).2 (allReleaseCalls s) := by
  rw [Cleanup_snd, CleanupGdiObjects_snd]
  have e : allReleaseCalls s =
      [Call.KillTimer s.g_hwnd 1, Call.KillTimer s.g_hwnd 2, Call.DestroyWindow s.g_hwnd] ++
      ([Call.DeleteObject GdiSlot.titleFont s.g_titleFont] ++
      ([Call.DeleteObject GdiSlot.subFont s.g_subFont] ++
      ([Call.DeleteObject GdiSlot.statusFont s.g_statusFont] ++
      ([Call.DeleteObject GdiSlot.bgBrush s.g_bgBrush] ++
      ([Call.DeleteObject GdiSlot.progressBgBrush s.g_progressBgBrush] ++
      ([Call.DeleteObject GdiSlot.progressFgBrush s.g_progressFgBrush] ++
      ([Call.DeleteObject GdiSlot.borderBrush s.g_borderBrush] ++
      ([Call.DeleteImage s.g_logoImage] ++
      ([Call.GdiplusShutdown s.g_gdiplusToken] ++
      ([Call.CloseHandle HandleSlot.readyEvent s.g_readyEvent] ++
      [Call.CloseHandle HandleSlot.appProcess s.g_appProcess])))))))))) := rfl
  rw [e]
  simp only [List.append_assoc]
  iterate 11 refine List.Sublist.append (ite_sublist _ _) ?_
  exact ite_sublist _ _

theorem releasedBy_Cleanup_sublist (s : Session) :
    List.Sublist (releasedBy (Cleanup s).2) cleanupOrder :=
  (Cleanup_calls_sublist s).filterMap Call.released

theorem cleanupOrder_nodup : cleanupOrder.Nodup := by decide

theorem pair_eq_of {α β : Type} (p : α × β) (a : α) (b : β) (h1 : p.1 = a) (h2 : p.2 = b) :
    p = (a, b) := by
  cases p
  simp only at h1 h2
  rw [h1, h2]

/-- C6: `Cleanup` sets every handle to null and makes each release exactly when
its handle is not null; a second `Cleanup` makes no call and leaves the state
unchanged, so over the two calls every resource is released at most once. -/
theorem Cleanup_idempotent (s : Session) :
    (Cleanup s).1 = s.nulled ∧
    (Cleanup s).2 =
      (if s.g_hwnd ≠ 0 then
         [Call.KillTimer s.g_hwnd 1, Call.KillTimer s.g_hwnd 2, Call.DestroyWindow s.g_hwnd]
       else []) ++
      ((if s.g_titleFont ≠ 0 then [Call.DeleteObject GdiSlot.titleFont s.g_titleFont]
        else []) ++
       (if s.g_subFont ≠ 0 then [Call.DeleteObject GdiSlot.subFont s.g_subFont] else []) ++
       (if s.g_statusFont ≠ 0 then [Call.DeleteObject GdiSlot.statusFont s.g_statusFont]
        else []) ++
       (if s.g_bgBrush ≠ 0 then [Call.DeleteObject GdiSlot.bgBrush s.g_bgBrush] else []) ++
       (if s.g_progressBgBrush ≠ 0 then
          [Call.DeleteObject GdiSlot.progressBgBrush s.g_progressBgBrush] else []) ++
       (if s.g_progressFgBrush ≠ 0 then
          [Call.DeleteObject GdiSlot.progressFgBrush s.g_progressFgBrush] else []) ++
       (if s.g_borderBrush ≠ 0 then [Call.DeleteObject GdiSlot.borderBrush s.g_borderBrush]
        else [])) ++
      (if s.g_logoImage ≠ 0 then [Call.DeleteImage s.g_logoImage] else []) ++
      (if s.g_gdiplusToken ≠ 0 then [Call.GdiplusShutdown s.g_gdiplusToken] else []) ++
      (if s.g_readyEvent ≠ 0 then [Call.CloseHandle HandleSlot.readyEvent s.g_readyEvent]
       else []) ++
      (if s.g_appProcess ≠ 0 then [Call.CloseHandle HandleSlot.appProcess s.g_appProcess]
       else []) ∧
    Cleanup (Cleanup s).1 = ((Cleanup s).1, []) ∧
    (andThen (Cleanup s) Cleanup).1 = (Cleanup s).1 ∧
    (releasedBy (andThen (Cleanup s) Cleanup).2).Nodup := by
  have h2 : (Cleanup (Cleanup s).1).2 = [] := by rw [Cleanup_fst]; exact Cleanup_nulled s
  have h1 : (Cleanup (Cleanup s).1).1 = (Cleanup s).1 := by
    rw [Cleanup_fst, Cleanup_fst]; rfl
  refine ⟨Cleanup_fst s, ?_, pair_eq_of _ _ _ h1 h2, (andThen_fst _ _).trans h1, ?_⟩
  · rw [Cleanup_snd, CleanupGdiObjects_snd]
  · rw [andThen_snd, h2, List.append_nil]
    exact (releasedBy_Cleanup_sublist s).nodup cleanupOrder_nodup

/-! ## The coordinator loop -/

theorem WndProc_keeps (s : Session) (m : Msg) :
    (WndProc s m).1.g_isClosing = s.g_isClosing ∧
    (WndProc s m).1.g_readyEvent = s.g_readyEvent ∧
    (WndProc s m).1.g_appProcess = s.g_appProcess ∧
    (WndProc s m).1.g_hwnd = s.g_hwnd := by
  unfold WndProc UpdateProgress
  split_ifs <;> simp

theorem WndProc_dispatches_nothing (s : Session) (m : Msg) :
    dispatchedMessages (WndProc s m).2 = [] := by
  unfold WndProc UpdateProgress DrawSplash
  split_ifs <;> simp [dispatchedMessages]

theorem DispatchMessageW_keeps (s : Session) (m : Msg) :
    (DispatchMessageW s m).1.g_isClosing = s.g_isClosing ∧
    (DispatchMessageW s m).1.g_readyEvent = s.g_readyEvent ∧
    (DispatchMessageW s m).1.g_appProcess = s.g_appProcess ∧
    (DispatchMessageW s m).1.g_hwnd = s.g_hwnd := by
  unfold DispatchMessageW
  split_ifs
  · exact WndProc_keeps s m
  · exact ⟨rfl, rfl, rfl, rfl⟩

theorem DispatchMessageW_dispatches_nothing (s : Session) (m : Msg) :
    dispatchedMessages (DispatchMessageW s m).2 = [] := by
  unfold DispatchMessageW
  split_ifs
  · exact WndProc_dispatches_nothing s m
  · rfl

theorem dispatchAll_keeps (ms : List Msg) :
    ∀ s : Session, (dispatchAll s ms).g_isClosing = s.g_isClosing ∧
      (dispatchAll s ms).g_readyEvent = s.g_readyEvent ∧
      (dispatchAll s ms).g_appProcess = s.g_appProcess ∧
      (dispatchAll s ms).g_hwnd = s.g_hwnd := by
  induction ms with
  | nil => intro s; exact ⟨rfl, rfl, rfl, rfl⟩
  | cons m ms ih =>
    intro s
    obtain ⟨a, b, c, d⟩ := ih (DispatchMessageW s m).1
    obtain ⟨a1, b1, c1, d1⟩ := DispatchMessageW_keeps s m
    exact ⟨a.trans a1, b.trans b1, c.trans c1, d.trans d1⟩

theorem dispatchedMessages_append (a b : List Call) :
    dispatchedMessages (a ++ b) = dispatchedMessages a ++ dispatchedMessages b := by
  simp [dispatchedMessages, List.filterMap_append]

/-- The inner loop dispatches the messages before the first quit message, in
order, leaves the messages after it in the queue, and sets `g_isClosing`
exactly when there is a quit message. -/
theorem drainMessages_spec (q : List Msg) :
    ∀ s : Session,
      dispatchedMessages (drainMessages s q).2.1 =
        q.takeWhile (fun m => decide (m.message ≠ WM_QUIT)) ∧
      (drainMessages s q).2.2 = (q.dropWhile (fun m => decide (m.message ≠ WM_QUIT))).tail ∧
      (drainMessages s q).1 =
        (if q.any (fun m => decide (m.message = WM_QUIT)) = true then
           { dispatchAll s (q.takeWhile (fun m => decide (m.message ≠ WM_QUIT))) with
             g_isClosing := true }
         else dispatchAll s (q.takeWhile (fun m => decide (m.message ≠ WM_QUIT)))) := by
  induction q with
  | nil => intro s; exact ⟨rfl, rfl, rfl⟩
  | cons m q ih =>
    intro s
    by_cases hq : m.message = WM_QUIT
    · simp [drainMessages, hq, dispatchedMessages, dispatchAll]
    · obtain ⟨h1, h2, h3⟩ := ih (DispatchMessageW s m).1
      have hd := DispatchMessageW_dispatches_nothing s m
      refine ⟨?_, ?_, ?_⟩
      · simp only [drainMessages, if_neg hq]
        rw [show (Call.PeekMessageW :: Call.TranslateMessage m :: Call.DispatchMessageW m ::
              ((DispatchMessageW s m).2 ++ (drainMessages (DispatchMessageW s m).1 q).2.1))
            = [Call.PeekMessageW, Call.TranslateMessage m, Call.DispatchMessageW m] ++
              ((DispatchMessageW s m).2 ++ (drainMessages (DispatchMessageW s m).1 q).2.1)
            from rfl]
        rw [dispatchedMessages_append, dispatchedMessages_append, hd, h1]
        simp [dispatchedMessages, hq]
      · simp only [drainMessages, if_neg hq]
        rw [h2]
        simp [hq]
      · simp only [drainMessages, if_neg hq]
        rw [h3]
        simp [hq, dispatchAll]

theorem coordinatorLoop_closing (startTime : Nat) (s : Session) (obs : List IterObs)
    (h : s.g_isClosing = true) : coordinatorLoop startTime s obs = some (s, []) := by
  cases obs <;> simp [coordinatorLoop, h]

/-- An iteration that sets `g_isClosing` is the last one: the loop ends with
the state and calls of that iteration, whatever would have been observed later. -/
theorem coordinatorLoop_exit (startTime : Nat) (s : Session) (o : IterObs)
    (rest : List IterObs) (hs : s.g_isClosing = false)
    (h : (loopBody startTime s o).1.g_isClosing = true) :
    coordinatorLoop startTime s (o :: rest) = some (loopBody startTime s o) := by
  simp only [coordinatorLoop, hs, Bool.false_eq_true, if_false]
  rw [coordinatorLoop_closing startTime _ rest h]
  simp

theorem coordinatorLoop_continue (startTime : Nat) (s : Session) (o : IterObs)
    (rest : List IterObs) (hs : s.g_isClosing = false) :
    coordinatorLoop startTime s (o :: rest) =
      (coordinatorLoop startTime (loopBody startTime s o).1 rest).map
        (fun r => (r.1, (loopBody startTime s o).2 ++ r.2)) := by
  simp only [coordinatorLoop, hs, Bool.false_eq_true, if_false]
  cases coordinatorLoop startTime (loopBody startTime s o).1 rest <;> rfl

theorem loopBody_signal (startTime : Nat) (s : Session) (o : IterObs)
    (h : WaitForSingleObject s.g_readyEvent o.signalSet = WAIT_OBJECT_0) :
    loopBody startTime s o =
      ({ s with g_isClosing := true },
       [Call.MsgWaitForMultipleObjects, Call.WaitForSingleObject s.g_readyEvent]) := by
  simp [loopBody, h]

theorem loopBody_childExit (startTime : Nat) (s : Session) (o : IterObs)
    (h : WaitForSingleObject s.g_readyEvent o.signalSet ≠ WAIT_OBJECT_0)
    (hp : s.g_appProcess ≠ 0) (hx : childExitDetected o = true) :
    loopBody startTime s o =
      ({ s with g_isClosing := true },
       [Call.MsgWaitForMultipleObjects, Call.WaitForSingleObject s.g_readyEvent,
        Call.GetExitCodeProcess s.g_appProcess]) := by
  simp [loopBody, h, hp, hx]

theorem loopBody_noExit (startTime : Nat) (s : Session) (o : IterObs)
    (h : WaitForSingleObject s.g_readyEvent o.signalSet ≠ WAIT_OBJECT_0)
    (hx : ¬ (s.g_appProcess ≠ 0 ∧ childExitDetected o = true)) :
    loopBody startTime s o =
      (if timedOut startTime o.now = true then
         ({ s with g_isClosing := true },
          [Call.MsgWaitForMultipleObjects, Call.WaitForSingleObject s.g_readyEvent] ++
            (if s.g_appProcess ≠ 0 then [Call.GetExitCodeProcess s.g_appProcess] else []) ++
            [Call.GetTickCount])
       else if o.waitResult = WAIT_OBJECT_0 + 1 then
         ((drainMessages s o.queue).1,
          [Call.MsgWaitForMultipleObjects, Call.WaitForSingleObject s.g_readyEvent] ++
            (if s.g_appProcess ≠ 0 then [Call.GetExitCodeProcess s.g_appProcess] else []) ++
            [Call.GetTickCount] ++ (drainMessages s o.queue).2.1)
       else
         (s,
          [Call.MsgWaitForMultipleObjects, Call.WaitForSingleObject s.g_readyEvent] ++
            (if s.g_appProcess ≠ 0 then [Call.GetExitCodeProcess s.g_appProcess] else []) ++
            [Call.GetTickCount])) := by
  unfold loopBody
  rw [if_neg h, if_neg hx]

theorem WaitForSingleObject_unset (h : Nat) : WaitForSingleObject h false ≠ WAIT_OBJECT_0 := by
  unfold WaitForSingleObject
  by_cases hh : h = 0
  · rw [if_pos hh]; decide
  · rw [if_neg hh]; decide

theorem WaitForSingleObject_set (h : Nat) (hh : h ≠ 0) :
    WaitForSingleObject h true = WAIT_OBJECT_0 := by
  simp [WaitForSingleObject, hh]

theorem childExitDetected_running (o : IterObs) (h : o.child = ChildStatus.running) :
    childExitDetected o = false := by
  unfold childExitDetected GetExitCodeProcess
  rw [h]
  cases o.exitQueryOk <;> simp

theorem childExitDetected_exited (o : IterObs) (c : Nat) (hok : o.exitQueryOk = true)
    (h : o.child = ChildStatus.exited c) :
    childExitDetected o = decide (c ≠ STILL_ACTIVE) := by
  unfold childExitDetected GetExitCodeProcess
  rw [h, hok]
  simp

theorem dwordSub_elapsed (st e : Nat) (hst : st < DWORD_MOD) (he : e < DWORD_MOD) :
    dwordSub ((st + e) % DWORD_MOD) st = e := by
  unfold dwordSub DWORD_MOD at *
  omega

theorem dispatchedMessages_beforeDrain (s : Session) :
    dispatchedMessages
      ([Call.MsgWaitForMultipleObjects, Call.WaitForSingleObject s.g_readyEvent] ++
        (if s.g_appProcess ≠ 0 then [Call.GetExitCodeProcess s.g_appProcess] else []) ++
        [Call.GetTickCount]) = [] := by
  split_ifs <;> rfl

theorem any_quit_iff (q : List Msg) :
    q.any (fun m => decide (m.message = WM_QUIT)) = true ↔ ∃ m ∈ q, m.message = WM_QUIT := by
  simp [List.any_eq_true]

theorem takeWhile_no_quit (q : List Msg) (h : ∀ m ∈ q, m.message ≠ WM_QUIT) :
    q.takeWhile (fun m => decide (m.message ≠ WM_QUIT)) = q := by
  rw [List.takeWhile_eq_self_iff]
  intro m hm
  simpa using h m hm

/-- C1: whatever the bounded wait reports, an iteration that finds the ready
event set at the re-check sets `g_isClosing` and ends the loop after the two
wait calls only: the child is not polled, the tick counter is not read and no
message is dispatched.  An event already set before the wait began is set at
the re-check, so the first iteration ends the loop. -/
theorem no_missed_wake (startTime : Nat) (s : Session) (o : IterObs) (rest : List IterObs)
    (hev : s.g_readyEvent ≠ 0) (hc : s.g_isClosing = false) (hset : o.signalSet = true) :
    (∀ w : Nat,
      loopBody startTime s { o with waitResult := w } =
        ({ s with g_isClosing := true },
         [Call.MsgWaitForMultipleObjects, Call.WaitForSingleObject s.g_readyEvent]) ∧
      coordinatorLoop startTime s ({ o with waitResult := w } :: rest) =
        some ({ s with g_isClosing := true },
          [Call.MsgWaitForMultipleObjects, Call.WaitForSingleObject s.g_readyEvent])) ∧
    (∀ first : IterObs, first.signalBefore = true →
      coordinatorLoop startTime s (first :: rest) =
        some ({ s with g_isClosing := true },
          [Call.MsgWaitForMultipleObjects, Call.WaitForSingleObject s.g_readyEvent])) := by
  have key : ∀ x : IterObs, x.signalSet = true →
      loopBody startTime s x =
        ({ s with g_isClosing := true },
         [Call.MsgWaitForMultipleObjects, Call.WaitForSingleObject s.g_readyEvent]) ∧
      coordinatorLoop startTime s (x :: rest) =
        some ({ s with g_isClosing := true },
          [Call.MsgWaitForMultipleObjects, Call.WaitForSingleObject s.g_readyEvent]) := by
    intro x hx
    have hw : WaitForSingleObject s.g_readyEvent x.signalSet = WAIT_OBJECT_0 := by
      rw [hx]; exact WaitForSingleObject_set _ hev
    have hb := loopBody_signal startTime s x hw
    refine ⟨hb, ?_⟩
    rw [coordinatorLoop_exit startTime s x rest hc (by rw [hb]), hb]
  refine ⟨fun w => key _ hset, fun first hf => (key first ?_).2⟩
  simp [IterObs.signalSet, hf]

/-- Witness for C1: the event is set during the wait, which reports a time-out. -/
theorem no_missed_wake_witness :
    runningSession.g_readyEvent ≠ 0 ∧ runningSession.g_isClosing = false ∧
    ({ quietObs with signalDuring := true } : IterObs).signalSet = true ∧
    coordinatorLoop 0 runningSession
        ({ ({ quietObs with signalDuring := true } : IterObs) with waitResult := WAIT_TIMEOUT }
          :: [quietObs]) =
      some ({ runningSession with g_isClosing := true },
        [Call.MsgWaitForMultipleObjects, Call.WaitForSingleObject runningSession.g_readyEvent]) :=
  ⟨by decide, rfl, rfl,
    ((no_missed_wake 0 runningSession { quietObs with signalDuring := true } [quietObs]
      (by decide) rfl rfl).1 WAIT_TIMEOUT).2⟩

/-- C2: the code evaluated where it departs from the claim.  A child that has
exited with the non-zero code 259 (`STILL_ACTIVE`) is polled successfully while
the ready event is unset, yet the iteration does not set `g_isClosing`: it goes
on to the time-out check and the loop does not end.  The exit test
`exitCode != STILL_ACTIVE` takes this exited child for a running one, against
the comment `// Check if process exited` above it. -/
theorem exit_code_259_keeps_waiting :
    STILL_ACTIVE ≠ 0 ∧
    (exitedObs STILL_ACTIVE).child = ChildStatus.exited 259 ∧
    (exitedObs STILL_ACTIVE).signalSet = false ∧
    (loopBody 0 runningSession (exitedObs STILL_ACTIVE)).2 =
      [Call.MsgWaitForMultipleObjects, Call.WaitForSingleObject runningSession.g_readyEvent,
       Call.GetExitCodeProcess runningSession.g_appProcess, Call.GetTickCount] ∧
    (loopBody 0 runningSession (exitedObs STILL_ACTIVE)).1.g_isClosing = false ∧
    coordinatorLoop 0 runningSession [exitedObs STILL_ACTIVE] = none := by
  decide

/-- Where the exit test does work: for every exit code `c` other than
`STILL_ACTIVE` (259), if the child has exited with code `c`, the exit-code
query succeeds and the ready event is not set, the iteration sets
`g_isClosing` right after polling the child and the loop ends there. -/
theorem child_exit_detected (startTime : Nat) (s : Session) (o : IterObs)
    (rest : List IterObs) (c : Nat)
    (hc : s.g_isClosing = false) (hp : s.g_appProcess ≠ 0) (hsig : o.signalSet = false)
    (hok : o.exitQueryOk = true) (hchild : o.child = ChildStatus.exited c)
    (hne : c ≠ STILL_ACTIVE) :
    loopBody startTime s o =
      ({ s with g_isClosing := true },
       [Call.MsgWaitForMultipleObjects, Call.WaitForSingleObject s.g_readyEvent,
        Call.GetExitCodeProcess s.g_appProcess]) ∧
    coordinatorLoop startTime s (o :: rest) =
      some ({ s with g_isClosing := true },
        [Call.MsgWaitForMultipleObjects, Call.WaitForSingleObject s.g_readyEvent,
         Call.GetExitCodeProcess s.g_appProcess]) := by
  have hw : WaitForSingleObject s.g_readyEvent o.signalSet ≠ WAIT_OBJECT_0 := by
    rw [hsig]; exact WaitForSingleObject_unset _
  have hx : childExitDetected o = true := by
    rw [childExitDetected_exited o c hok hchild]; simpa using hne
  have hb := loopBody_childExit startTime s o hw hp hx
  refine ⟨hb, ?_⟩
  rw [coordinatorLoop_exit startTime s o rest hc (by rw [hb]), hb]

/-- An instance of `child_exit_detected`: the child has crashed with exit code 1. -/
theorem child_exit_detected_witness :
    runningSession.g_appProcess ≠ 0 ∧ (exitedObs 1).child = ChildStatus.exited 1 ∧
    1 ≠ STILL_ACTIVE ∧
    coordinatorLoop 0 runningSession (exitedObs 1 :: [quietObs]) =
      some ({ runningSession with g_isClosing := true },
        [Call.MsgWaitForMultipleObjects, Call.WaitForSingleObject runningSession.g_readyEvent,
         Call.GetExitCodeProcess runningSession.g_appProcess]) :=
  ⟨by decide, rfl, by decide,
    (child_exit_detected 0 runningSession (exitedObs 1) [quietObs] 1 rfl (by decide) rfl rfl
      rfl (by decide)).2⟩

/-- C3: with the ready event unset and the child running, the elapsed time
computed as the 32-bit difference of the tick counts equals the true elapsed
time `e < 2 ^ 32` whatever the start tick, the time-out test is `300000 < e`,
and when it holds the iteration sets `g_isClosing` and ends the loop; when
`e ≤ 300000` the time-out check does not set it (only a quit message found in
the queue does). -/
theorem timeout_safety_net (st e : Nat) (s : Session) (o : IterObs) (rest : List IterObs)
    (hst : st < DWORD_MOD) (he : e < DWORD_MOD) (hc : s.g_isClosing = false)
    (hsig : o.signalSet = false) (hchild : o.child = ChildStatus.running)
    (hnow : o.now = (st + e) % DWORD_MOD) :
    MAX_WAIT_MS = 300000 ∧ dwordSub o.now st = e ∧
    timedOut st o.now = decide (300000 < e) ∧
    (300000 < e →
      (loopBody st s o).1 = { s with g_isClosing := true } ∧
      coordinatorLoop st s (o :: rest) = some (loopBody st s o)) ∧
    (e ≤ 300000 →
      (loopBody st s o).1.g_isClosing =
        (decide (o.waitResult = WAIT_OBJECT_0 + 1) &&
          o.queue.any (fun m => decide (m.message = WM_QUIT)))) := by
  have hd : dwordSub o.now st = e := by rw [hnow]; exact dwordSub_elapsed st e hst he
  have ht : timedOut st o.now = decide (300000 < e) := by
    unfold timedOut; rw [hd]; rfl
  have hw : WaitForSingleObject s.g_readyEvent o.signalSet ≠ WAIT_OBJECT_0 := by
    rw [hsig]; exact WaitForSingleObject_unset _
  have hx : ¬ (s.g_appProcess ≠ 0 ∧ childExitDetected o = true) := by
    rw [childExitDetected_running o hchild]; simp
  have hb := loopBody_noExit st s o hw hx
  refine ⟨rfl, hd, ht, ?_, ?_⟩
  · intro hlt
    have hto : timedOut st o.now = true := by rw [ht]; simpa using hlt
    rw [if_pos hto] at hb
    have h1 : (loopBody st s o).1 = { s with g_isClosing := true } := by rw [hb]
    exact ⟨h1, coordinatorLoop_exit st s o rest hc (by rw [h1])⟩
  · intro hle
    have hto : ¬ timedOut st o.now = true := by rw [ht]; simp; omega
    rw [if_neg hto] at hb
    rw [hb]
    by_cases hwr : o.waitResult = WAIT_OBJECT_0 + 1
    · rw [if_pos hwr]
      simp only [hwr, decide_True, Bool.true_and]
      rw [(drainMessages_spec o.queue s).2.2]
      have hk := (dispatchAll_keeps
        (o.queue.takeWhile (fun m => decide (m.message ≠ WM_QUIT))) s).1
      by_cases hq : o.queue.any (fun m => decide (m.message = WM_QUIT)) = true
      · rw [if_pos hq, hq]
      · rw [if_neg hq, hk, hc]
        simpa using hq
    · rw [if_neg hwr]
      simp [hwr, hc]

/-- Witness for C3: the tick counter wraps between launch and the check. -/
theorem timeout_safety_net_witness :
    4294966296 < DWORD_MOD ∧ 300001 < DWORD_MOD ∧
    (tickObs 299001).now = (4294966296 + 300001) % DWORD_MOD ∧
    dwordSub (tickObs 299001).now 4294966296 = 300001 ∧
    timedOut 4294966296 (tickObs 299001).now = decide (300000 < 300001) :=
  ⟨by decide, by decide, by decide,
    (timeout_safety_net 4294966296 300001 runningSession (tickObs 299001) [] (by decide)
      (by decide) rfl rfl rfl (by decide)).2.1,
    (timeout_safety_net 4294966296 300001 runningSession (tickObs 299001) [] (by decide)
      (by decide) rfl rfl rfl (by decide)).2.2.1⟩

/-- C9: in an iteration where the ready event is unset, the child is running
and the time-out has not elapsed: if the wait reported pending messages, the
messages before the first quit message are dispatched in queue order and the
messages after it stay in the queue; if there is a quit message `g_isClosing`
is set and the loop ends, otherwise the whole queue is dispatched and
`g_isClosing` stays unset.  If the wait reported anything else, nothing is
dispatched and the session is unchanged. -/
theorem drain_step (st : Nat) (s : Session) (o : IterObs) (rest : List IterObs)
    (hc : s.g_isClosing = false) (hsig : o.signalSet = false)
    (hchild : o.child = ChildStatus.running) (hto : timedOut st o.now = false) :
    (o.waitResult = WAIT_OBJECT_0 + 1 →
      dispatchedMessages (loopBody st s o).2 =
        o.queue.takeWhile (fun m => decide (m.message ≠ WM_QUIT)) ∧
      (drainMessages s o.queue).2.2 =
        (o.queue.dropWhile (fun m => decide (m.message ≠ WM_QUIT))).tail ∧
      ((∃ m ∈ o.queue, m.message = WM_QUIT) →
        (loopBody st s o).1 =
          { dispatchAll s (o.queue.takeWhile (fun m => decide (m.message ≠ WM_QUIT))) with
            g_isClosing := true } ∧
        coordinatorLoop st s (o :: rest) = some (loopBody st s o)) ∧
      ((∀ m ∈ o.queue, m.message ≠ WM_QUIT) →
        dispatchedMessages (loopBody st s o).2 = o.queue ∧
        (loopBody st s o).1 = dispatchAll s o.queue ∧
        (loopBody st s o).1.g_isClosing = false)) ∧
    (o.waitResult ≠ WAIT_OBJECT_0 + 1 →
      dispatchedMessages (loopBody st s o).2 = [] ∧ (loopBody st s o).1 = s) := by
  have hw : WaitForSingleObject s.g_readyEvent o.signalSet ≠ WAIT_OBJECT_0 := by
    rw [hsig]; exact WaitForSingleObject_unset _
  have hx : ¬ (s.g_appProcess ≠ 0 ∧ childExitDetected o = true) := by
    rw [childExitDetected_running o hchild]; simp
  have hb := loopBody_noExit st s o hw hx
  have hto2 : ¬ timedOut st o.now = true := by rw [hto]; simp
  rw [if_neg hto2] at hb
  obtain ⟨d1, d2, d3⟩ := drainMessages_spec o.queue s
  constructor
  · intro hwr
    rw [if_pos hwr] at hb
    have hdisp : dispatchedMessages (loopBody st s o).2 =
        o.queue.takeWhile (fun m => decide (m.message ≠ WM_QUIT)) := by
      rw [hb]
      simp only []
      rw [dispatchedMessages_append, dispatchedMessages_beforeDrain, d1, List.nil_append]
    have hfst : (loopBody st s o).1 = (drainMessages s o.queue).1 := by rw [hb]
    refine ⟨hdisp, d2, ?_, ?_⟩
    · intro hq
      have hany := (any_quit_iff o.queue).2 hq
      rw [if_pos hany] at d3
      have h1 : (loopBody st s o).1 =
          { dispatchAll s (o.queue.takeWhile (fun m => decide (m.message ≠ WM_QUIT))) with
            g_isClosing := true } := by rw [hfst, d3]
      exact ⟨h1, coordinatorLoop_exit st s o rest hc (by rw [h1])⟩
    · intro hq
      have hany : ¬ o.queue.any (fun m => decide (m.message = WM_QUIT)) = true := by
        rw [any_quit_iff]
        rintro ⟨m, hm, hmq⟩
        exact hq m hm hmq
      rw [if_neg hany, takeWhile_no_quit o.queue hq] at d3
      have h1 : (loopBody st s o).1 = dispatchAll s o.queue := by rw [hfst, d3]
      refine ⟨?_, h1, ?_⟩
      · rw [hdisp, takeWhile_no_quit o.queue hq]
      · rw [h1, (dispatchAll_keeps o.queue s).1, hc]
  · intro hwr
    rw [if_neg hwr] at hb
    rw [hb]
    exact ⟨dispatchedMessages_beforeDrain s, rfl⟩

/-- Witness for C9: a fast tick, a quit message and a slow tick are queued;
only the fast tick is dispatched and the slow tick stays in the queue. -/
theorem drain_step_witness :
    runningSession.g_isClosing = false ∧
    timedOut 0 (messageObs [fastTick runningSession, quitMsg, slowTick runningSession]).now
      = false ∧
    dispatchedMessages (loopBody 0 runningSession
        (messageObs [fastTick runningSession, quitMsg, slowTick runningSession])).2 =
      [fastTick runningSession, quitMsg, slowTick runningSession].takeWhile
        (fun m => decide (m.message ≠ WM_QUIT)) ∧
    (drainMessages runningSession
        (messageObs [fastTick runningSession, quitMsg, slowTick runningSession]).queue).2.2 =
      ((messageObs [fastTick runningSession, quitMsg, slowTick runningSession]).queue.dropWhile
        (fun m => decide (m.message ≠ WM_QUIT))).tail :=
  ⟨rfl, by decide,
    ((drain_step 0 runningSession
      (messageObs [fastTick runningSession, quitMsg, slowTick runningSession]) []
      rfl rfl rfl (by decide)).1 rfl).1,
    ((drain_step 0 runningSession
      (messageObs [fastTick runningSession, quitMsg, slowTick runningSession]) []
      rfl rfl rfl (by decide)).1 rfl).2.1⟩

/-! ## Program entry -/

theorem closeMutex_sublist (m : Nat) :
    List.Sublist (closeMutex m) [Call.CloseHandle HandleSlot.mutex m] :=
  ite_sublist _ _

theorem dialog_not_in_closeMutex (m : Nat) : Call.MessageBoxW ∉ closeMutex m := by
  intro h
  have := (closeMutex_sublist m).subset h
  simp at this

theorem dialog_not_in_Cleanup (s : Session) : Call.MessageBoxW ∉ (Cleanup s).2 := by
  intro h
  have := (Cleanup_calls_sublist s).subset h
  simp [allReleaseCalls] at this

theorem dialog_not_in_WndProc (s : Session) (m : Msg) : Call.MessageBoxW ∉ (WndProc s m).2 := by
  unfold WndProc UpdateProgress DrawSplash
  split_ifs <;> simp

theorem dialog_not_in_DispatchMessageW (s : Session) (m : Msg) :
    Call.MessageBoxW ∉ (DispatchMessageW s m).2 := by
  unfold DispatchMessageW
  split_ifs
  · exact dialog_not_in_WndProc s m
  · simp

theorem dialog_not_in_drainMessages (q : List Msg) :
    ∀ s : Session, Call.MessageBoxW ∉ (drainMessages s q).2.1 := by
  induction q with
  | nil => intro s; simp [drainMessages]
  | cons m q ih =>
    intro s
    by_cases hq : m.message = WM_QUIT
    · simp [drainMessages, hq]
    · simp only [drainMessages, if_neg hq]
      intro h
      simp only [List.mem_cons, List.mem_append] at h
      rcases h with h | h | h | h | h
      · cases h
      · cases h
      · cases h
      · exact dialog_not_in_DispatchMessageW s m h
      · exact ih _ h

theorem dialog_not_in_loopBody (st : Nat) (s : Session) (o : IterObs) :
    Call.MessageBoxW ∉ (loopBody st s o).2 := by
  have hd := dialog_not_in_drainMessages o.queue s
  have hp : Call.MessageBoxW ∉
      [Call.MsgWaitForMultipleObjects, Call.WaitForSingleObject s.g_readyEvent] ++
        (if s.g_appProcess ≠ 0 then [Call.GetExitCodeProcess s.g_appProcess] else []) ++
        [Call.GetTickCount] := by
    split_ifs <;> simp
  by_cases h1 : WaitForSingleObject s.g_readyEvent o.signalSet = WAIT_OBJECT_0
  · rw [loopBody_signal st s o h1]; simp
  · by_cases h2 : s.g_appProcess ≠ 0 ∧ childExitDetected o = true
    · rw [loopBody_childExit st s o h1 h2.1 h2.2]; simp
    · rw [loopBody_noExit st s o h1 h2]
      by_cases h3 : timedOut st o.now = true
      · rw [if_pos h3]; exact hp
      · rw [if_neg h3]
        by_cases h4 : o.waitResult = WAIT_OBJECT_0 + 1
        · rw [if_pos h4]
          intro hm
          rcases List.mem_append.1 hm with hm | hm
          · exact hp hm
          · exact hd hm
        · rw [if_neg h4]; exact hp

theorem dialog_not_in_coordinatorLoop (st : Nat) (obs : List IterObs) :
    ∀ (s : Session) (r : Session × List Call),
      coordinatorLoop st s obs = some r → Call.MessageBoxW ∉ r.2 := by
  induction obs with
  | nil =>
    intro s r h
    unfold coordinatorLoop at h
    split_ifs at h
    cases h
    simp
  | cons o rest ih =>
    intro s r h
    by_cases hs : s.g_isClosing = true
    · rw [coordinatorLoop_closing st s _ hs] at h
      cases h
      simp
    · have hs2 : s.g_isClosing = false := by simpa using hs
      rw [coordinatorLoop_continue st s o rest hs2] at h
      cases hr : coordinatorLoop st (loopBody st s o).1 rest with
      | none => rw [hr] at h; cases h
      | some r2 =>
        rw [hr] at h
        simp only [Option.map_some', Option.some.injEq] at h
        subst h
        simp only [List.mem_append, not_or]
        exact ⟨dialog_not_in_loopBody st s o, ih _ _ hr⟩

/-! ### When the loop ends -/

theorem loopBody_keeps (st : Nat) (s : Session) (o : IterObs) :
    (loopBody st s o).1.g_readyEvent = s.g_readyEvent ∧
    (loopBody st s o).1.g_appProcess = s.g_appProcess := by
  obtain ⟨_, _, d3⟩ := drainMessages_spec o.queue s
  obtain ⟨_, k2, k3, _⟩ :=
    dispatchAll_keeps (o.queue.takeWhile (fun m => decide (m.message ≠ WM_QUIT))) s
  by_cases h1 : WaitForSingleObject s.g_readyEvent o.signalSet = WAIT_OBJECT_0
  · rw [loopBody_signal st s o h1]; exact ⟨rfl, rfl⟩
  · by_cases h2 : s.g_appProcess ≠ 0 ∧ childExitDetected o = true
    · rw [loopBody_childExit st s o h1 h2.1 h2.2]; exact ⟨rfl, rfl⟩
    · rw [loopBody_noExit st s o h1 h2]
      by_cases h3 : timedOut st o.now = true
      · rw [if_pos h3]; exact ⟨rfl, rfl⟩
      · rw [if_neg h3]
        by_cases h4 : o.waitResult = WAIT_OBJECT_0 + 1
        · rw [if_pos h4]
          simp only []
          rw [d3]
          by_cases hq : o.queue.any (fun m => decide (m.message = WM_QUIT)) = true
          · rw [if_pos hq]; exact ⟨k2, k3⟩
          · rw [if_neg hq]; exact ⟨k2, k3⟩
        · rw [if_neg h4]; exact ⟨rfl, rfl⟩

theorem loopBody_closing (st : Nat) (s : Session) (o : IterObs) (hs : s.g_isClosing = false) :
    (loopBody st s o).1.g_isClosing = dismisses st s o := by
  obtain ⟨_, _, d3⟩ := drainMessages_spec o.queue s
  obtain ⟨k1, _, _, _⟩ :=
    dispatchAll_keeps (o.queue.takeWhile (fun m => decide (m.message ≠ WM_QUIT))) s
  unfold dismisses
  by_cases h1 : WaitForSingleObject s.g_readyEvent o.signalSet = WAIT_OBJECT_0
  · rw [loopBody_signal st s o h1]; simp [h1]
  · by_cases h2 : s.g_appProcess ≠ 0 ∧ childExitDetected o = true
    · rw [loopBody_childExit st s o h1 h2.1 h2.2]; simp [h2.1, h2.2]
    · rw [loopBody_noExit st s o h1 h2]
      have h2b : (decide (s.g_appProcess ≠ 0) && childExitDetected o) = false := by
        by_cases hp : s.g_appProcess ≠ 0
        · have : childExitDetected o ≠ true := fun hx => h2 ⟨hp, hx⟩
          simp [this]
        · simp [hp]
      by_cases h3 : timedOut st o.now = true
      · rw [if_pos h3]; simp [h3]
      · rw [if_neg h3]
        have h3b : timedOut st o.now = false := by simpa using h3
        by_cases h4 : o.waitResult = WAIT_OBJECT_0 + 1
        · rw [if_pos h4]
          simp only []
          rw [d3]
          by_cases hq : o.queue.any (fun m => decide (m.message = WM_QUIT)) = true
          · rw [if_pos hq]
            simp [h4, hq]
          · rw [if_neg hq, k1, hs]
            have hq2 : o.queue.any (fun m => decide (m.message = WM_QUIT)) = false := by
              simpa using hq
            simp only [decide_eq_false h1, h2b, h3b, hq2, Bool.or_false, Bool.and_false]
        · rw [if_neg h4]
          simp only [decide_eq_false h1, h2b, h3b, decide_eq_false h4, Bool.or_false,
            Bool.false_and, hs]

theorem dismisses_congr (st : Nat) (s t : Session) (o : IterObs)
    (h1 : s.g_readyEvent = t.g_readyEvent) (h2 : s.g_appProcess = t.g_appProcess) :
    dismisses st s o = dismisses st t o := by
  unfold dismisses
  rw [h1, h2]

/-- The loop ends within the given observations exactly when one of them
gives a reason to close. -/
theorem coordinatorLoop_isSome (st : Nat) (obs : List IterObs) :
    ∀ s : Session, s.g_isClosing = false →
      ((coordinatorLoop st s obs).isSome = true ↔ ∃ o ∈ obs, dismisses st s o = true) := by
  induction obs with
  | nil =>
    intro s hs
    simp [coordinatorLoop, hs]
  | cons o rest ih =>
    intro s hs
    by_cases hd : dismisses st s o = true
    · have hcl : (loopBody st s o).1.g_isClosing = true := by
        rw [loopBody_closing st s o hs]; exact hd
      rw [coordinatorLoop_exit st s o rest hs hcl]
      simp only [Option.isSome_some, true_iff]
      exact ⟨o, List.mem_cons_self _ _, hd⟩
    · have hcl : (loopBody st s o).1.g_isClosing = false := by
        rw [loopBody_closing st s o hs]; simpa using hd
      have hmap : (Option.map (fun r => (r.1, (loopBody st s o).2 ++ r.2))
          (coordinatorLoop st (loopBody st s o).1 rest)).isSome =
          (coordinatorLoop st (loopBody st s o).1 rest).isSome := by
        cases coordinatorLoop st (loopBody st s o).1 rest <;> rfl
      rw [coordinatorLoop_continue st s o rest hs, hmap, ih _ hcl]
      obtain ⟨k1, k2⟩ := loopBody_keeps st s o
      constructor
      · rintro ⟨x, hx, hxd⟩
        refine ⟨x, List.mem_cons_of_mem _ hx, ?_⟩
        rw [← dismisses_congr st _ s x k1 k2]; exact hxd
      · rintro ⟨x, hx, hxd⟩
        rcases List.mem_cons.1 hx with rfl | hx
        · exact absurd hxd hd
        · refine ⟨x, hx, ?_⟩
          rw [dismisses_congr st _ s x k1 k2]; exact hxd

/-! ### The paths through `wWinMain` -/

theorem wWinMain_second (e : StartupEnv) (h : e.lastError = ERROR_ALREADY_EXISTS) :
    wWinMain e =
      some { exitCode := 0, session := { Session.initial with g_exeDir := e.exeDir },
             calls := [Call.CreateMutexW] ++ closeMutex e.mutex ++ [Call.OpenEventW] ++
               (if e.existingEvent ≠ 0 then
                  [Call.SetEvent e.existingEvent,
                   Call.CloseHandle HandleSlot.existingEvent e.existingEvent]
                else []) } := by
  unfold wWinMain
  rw [if_pos h]

theorem wWinMain_eventFails (e : StartupEnv) (h1 : e.lastError ≠ ERROR_ALREADY_EXISTS)
    (h2 : e.readyEvent = 0) :
    wWinMain e =
      some { exitCode := 1,
             session := { Session.initial with g_exeDir := e.exeDir,
                                               g_readyEvent := e.readyEvent },
             calls := [Call.CreateMutexW, Call.CreateEventW] ++ closeMutex e.mutex } := by
  unfold wWinMain
  rw [if_neg h1]
  simp only []
  rw [if_pos h2]

theorem wWinMain_windowFails (e : StartupEnv) (h1 : e.lastError ≠ ERROR_ALREADY_EXISTS)
    (h2 : e.readyEvent ≠ 0) (h3 : e.hwnd = 0) :
    wWinMain e =
      some { exitCode := 1, session := (Cleanup (sessionWithWindow e)).1,
             calls := windowCalls ++ (Cleanup (sessionWithWindow e)).2 ++
               closeMutex e.mutex } := by
  unfold wWinMain
  rw [if_neg h1]
  simp only []
  rw [if_neg h2, if_pos h3]
  rfl

theorem wWinMain_launchFails (e : StartupEnv) (h1 : e.lastError ≠ ERROR_ALREADY_EXISTS)
    (h2 : e.readyEvent ≠ 0) (h3 : e.hwnd ≠ 0) (h4 : e.createProcessOk = false) :
    wWinMain e =
      some { exitCode := 1, session := (Cleanup (sessionWithWindow e)).1,
             calls := windowCalls ++ [Call.ShowWindow e.hwnd, Call.UpdateWindow e.hwnd] ++
               [Call.CreateProcessW] ++ [Call.MessageBoxW] ++
               (Cleanup (sessionWithWindow e)).2 ++ closeMutex e.mutex } := by
  unfold wWinMain
  rw [if_neg h1]
  simp only []
  rw [if_neg h2, if_neg h3]
  simp only [LaunchMainApp, h4]
  rfl

theorem wWinMain_loop (e : StartupEnv) (h1 : e.lastError ≠ ERROR_ALREADY_EXISTS)
    (h2 : e.readyEvent ≠ 0) (h3 : e.hwnd ≠ 0) (h4 : e.createProcessOk = true) :
    wWinMain e =
      (coordinatorLoop e.startTime (loopEntry e) e.iterations).map (fun r =>
        { exitCode := 0, session := (Cleanup r.1).1,
          calls := windowCalls ++ [Call.ShowWindow e.hwnd, Call.UpdateWindow e.hwnd] ++
            [Call.CreateProcessW, Call.CloseHandle HandleSlot.hThread e.hThread] ++
            [Call.SetTimer e.hwnd 1 PROGRESS_INTERVAL, Call.SetTimer e.hwnd 2 4000,
             Call.GetTickCount] ++ r.2 ++ (Cleanup r.1).2 ++ closeMutex e.mutex }) := by
  unfold wWinMain
  rw [if_neg h1]
  simp only []
  rw [if_neg h2, if_neg h3]
  simp only [LaunchMainApp, h4]
  show (match coordinatorLoop e.startTime (loopEntry e) e.iterations with
    | none => none
    | some r => _) = _
  cases coordinatorLoop e.startTime (loopEntry e) e.iterations <;> rfl

theorem not_fatal_of_ok (e : StartupEnv) (h2 : e.readyEvent ≠ 0) (h3 : e.hwnd ≠ 0)
    (h4 : e.createProcessOk = true) : ¬ fatalStartup e := by
  unfold fatalStartup eventFails windowFails launchFails
  rintro (h | ⟨_, h⟩ | ⟨_, _, h⟩)
  · exact h2 h
  · exact h3 h
  · rw [h4] at h; cases h

theorem not_launchFails_of_event (e : StartupEnv) (h2 : e.readyEvent = 0) :
    ¬ launchFails e := fun h => h.1 h2

theorem not_launchFails_of_window (e : StartupEnv) (h3 : e.hwnd = 0) :
    ¬ launchFails e := fun h => h.2.1 h3

theorem loopEntry_not_closing (e : StartupEnv) : (loopEntry e).g_isClosing = false := rfl

/-- C4: when the single-instance mutex already exists, `wWinMain` returns 0
whatever else the system answers; it creates no event, window or process and
shows no dialog; besides opening and closing its own handles its only call is
`SetEvent` on the existing instance's event, made exactly when that event
could be opened. -/
theorem second_instance_is_wake (e : StartupEnv) (h : e.lastError = ERROR_ALREADY_EXISTS) :
    ∃ r, wWinMain e = some r ∧ r.exitCode = 0 ∧
      r.session = { Session.initial with g_exeDir := e.exeDir } ∧
      r.calls = [Call.CreateMutexW] ++ closeMutex e.mutex ++ [Call.OpenEventW] ++
        (if e.existingEvent ≠ 0 then
           [Call.SetEvent e.existingEvent,
            Call.CloseHandle HandleSlot.existingEvent e.existingEvent]
         else []) ∧
      Call.CreateEventW ∉ r.calls ∧ Call.CreateWindowExW ∉ r.calls ∧
      Call.CreateProcessW ∉ r.calls ∧ Call.MessageBoxW ∉ r.calls ∧
      (Call.SetEvent e.existingEvent ∈ r.calls ↔ e.existingEvent ≠ 0) := by
  refine ⟨_, wWinMain_second e h, rfl, rfl, rfl, ?_, ?_, ?_, ?_, ?_⟩ <;>
    (simp only [closeMutex]; split_ifs <;> simp_all)

/-- Witness for C4: a second instance that finds the first one's event. -/
theorem second_instance_is_wake_witness :
    ({ goodStartup [] with lastError := ERROR_ALREADY_EXISTS, existingEvent := 0x20 }
      : StartupEnv).lastError = ERROR_ALREADY_EXISTS ∧
    ∃ r, wWinMain { goodStartup [] with lastError := ERROR_ALREADY_EXISTS,
                                        existingEvent := 0x20 } = some r ∧
      r.exitCode = 0 :=
  ⟨rfl,
    (second_instance_is_wake
      { goodStartup [] with lastError := ERROR_ALREADY_EXISTS, existingEvent := 0x20 }
      rfl).imp (fun _ hr => ⟨hr.1, hr.2.1⟩)⟩

theorem releases_before_dialog (e : StartupEnv) :
    releasedBy (windowCalls ++ [Call.ShowWindow e.hwnd, Call.UpdateWindow e.hwnd] ++
      [Call.CreateProcessW]) = [] := rfl

theorem window_not_created_on_event_failure (m : Nat) :
    Call.CreateWindowExW ∉ [Call.CreateMutexW, Call.CreateEventW] ++ closeMutex m := by
  simp only [closeMutex]; split_ifs <;> simp

theorem dialog_in_launch_failure_calls (e : StartupEnv) (post : List Call) :
    Call.MessageBoxW ∈ windowCalls ++ [Call.ShowWindow e.hwnd, Call.UpdateWindow e.hwnd] ++
      [Call.CreateProcessW] ++ [Call.MessageBoxW] ++ post := by
  simp

/-- C5: for a first instance, `wWinMain` returns 1 exactly on a fatal startup
failure (the ready event, the window or the child process could not be
created) and such a run always returns; when the event cannot be created no
window is created; the error dialog is shown exactly when the launch fails,
after every startup call and before any release.  Without a startup failure
the run returns exactly when some iteration gives a reason to close (ready
event, child exit, time-out or quit message), and then it returns 0. -/
theorem exit_status_first_instance (e : StartupEnv)
    (hfirst : e.lastError ≠ ERROR_ALREADY_EXISTS) :
    (fatalStartup e → ∃ r, wWinMain e = some r ∧ r.exitCode = 1) ∧
    (¬ fatalStartup e →
      ((∃ r, wWinMain e = some r ∧ r.exitCode = 0) ↔
        ∃ o ∈ e.iterations, dismisses e.startTime (loopEntry e) o = true)) ∧
    (∀ r, wWinMain e = some r →
      (r.exitCode = 1 ↔ fatalStartup e) ∧
      (r.exitCode = 0 ↔ ¬ fatalStartup e) ∧
      (Call.MessageBoxW ∈ r.calls ↔ launchFails e) ∧
      (eventFails e → Call.CreateWindowExW ∉ r.calls) ∧
      (launchFails e →
        r.calls =
          (windowCalls ++ [Call.ShowWindow e.hwnd, Call.UpdateWindow e.hwnd] ++
            [Call.CreateProcessW]) ++ [Call.MessageBoxW] ++
          ((Cleanup (sessionWithWindow e)).2 ++ closeMutex e.mutex) ∧
        releasedBy (windowCalls ++ [Call.ShowWindow e.hwnd, Call.UpdateWindow e.hwnd] ++
          [Call.CreateProcessW]) = [])) := by
  by_cases h2 : e.readyEvent = 0
  · -- the ready event could not be created
    have hw := wWinMain_eventFails e hfirst h2
    have hf : fatalStartup e := Or.inl h2
    have hl := not_launchFails_of_event e h2
    refine ⟨fun _ => ⟨_, hw, rfl⟩, fun hn => absurd hf hn, ?_⟩
    intro r hr
    rw [hw] at hr
    cases hr
    refine ⟨⟨fun _ => hf, fun _ => rfl⟩, ⟨fun h => absurd h (show ¬ ((1 : Int) = 0) by decide), fun hn => absurd hf hn⟩,
      ⟨fun h => ?_, fun h => absurd h hl⟩, fun _ => window_not_created_on_event_failure _,
      fun h => absurd h hl⟩
    have : Call.MessageBoxW ∈ [Call.CreateMutexW, Call.CreateEventW] ++ closeMutex e.mutex := h
    rcases List.mem_append.1 this with h | h
    · simp at h
    · exact absurd h (dialog_not_in_closeMutex _)
  · by_cases h3 : e.hwnd = 0
    · -- the window could not be created
      have hw := wWinMain_windowFails e hfirst h2 h3
      have hf : fatalStartup e := Or.inr (Or.inl ⟨h2, h3⟩)
      have hl := not_launchFails_of_window e h3
      refine ⟨fun _ => ⟨_, hw, rfl⟩, fun hn => absurd hf hn, ?_⟩
      intro r hr
      rw [hw] at hr
      cases hr
      refine ⟨⟨fun _ => hf, fun _ => rfl⟩, ⟨fun h => absurd h (show ¬ ((1 : Int) = 0) by decide), fun hn => absurd hf hn⟩,
        ⟨fun h => ?_, fun h => absurd h hl⟩, fun h => absurd h h2, fun h => absurd h hl⟩
      have : Call.MessageBoxW ∈ windowCalls ++ (Cleanup (sessionWithWindow e)).2 ++
          closeMutex e.mutex := h
      rcases List.mem_append.1 this with h | h
      · rcases List.mem_append.1 h with h | h
        · simp [windowCalls] at h
        · exact absurd h (dialog_not_in_Cleanup _)
      · exact absurd h (dialog_not_in_closeMutex _)
    · cases h4 : e.createProcessOk with
      | false =>
        -- the child could not be launched
        have hw := wWinMain_launchFails e hfirst h2 h3 h4
        have hf : fatalStartup e := Or.inr (Or.inr ⟨h2, h3, h4⟩)
        have hl : launchFails e := ⟨h2, h3, h4⟩
        refine ⟨fun _ => ⟨_, hw, rfl⟩, fun hn => absurd hf hn, ?_⟩
        intro r hr
        rw [hw] at hr
        cases hr
        refine ⟨⟨fun _ => hf, fun _ => rfl⟩, ⟨fun h => absurd h (show ¬ ((1 : Int) = 0) by decide), fun hn => absurd hf hn⟩,
          ⟨fun _ => hl, fun _ => dialog_in_launch_failure_calls e _⟩,
          fun h => absurd h h2, fun _ => ⟨?_, releases_before_dialog e⟩⟩
        simp only [List.append_assoc]
      | true =>
        -- startup succeeded: the main loop runs
        have hw := wWinMain_loop e hfirst h2 h3 h4
        have hf := not_fatal_of_ok e h2 h3 h4
        have hl : ¬ launchFails e := fun h => hf (Or.inr (Or.inr h))
        have hsome := coordinatorLoop_isSome e.startTime e.iterations (loopEntry e)
          (loopEntry_not_closing e)
        refine ⟨fun h => absurd h hf, fun _ => ?_, ?_⟩
        · rw [← hsome, hw]
          cases hloop : coordinatorLoop e.startTime (loopEntry e) e.iterations with
          | none => simp
          | some r2 => simp
        · intro r hr
          rw [hw] at hr
          cases hloop : coordinatorLoop e.startTime (loopEntry e) e.iterations with
          | none => rw [hloop] at hr; cases hr
          | some r2 =>
            rw [hloop] at hr
            simp only [Option.map_some', Option.some.injEq] at hr
            subst hr
            refine ⟨⟨fun h => absurd h (show ¬ ((0 : Int) = 1) by decide), fun h => absurd h hf⟩, ⟨fun _ => hf, fun _ => rfl⟩,
              ⟨fun h => ?_, fun h => absurd h hl⟩, fun h => absurd h h2, fun h => absurd h hl⟩
            exfalso
            have hmem : Call.MessageBoxW ∈
                windowCalls ++ [Call.ShowWindow e.hwnd, Call.UpdateWindow e.hwnd] ++
                [Call.CreateProcessW, Call.CloseHandle HandleSlot.hThread e.hThread] ++
                [Call.SetTimer e.hwnd 1 PROGRESS_INTERVAL, Call.SetTimer e.hwnd 2 4000,
                 Call.GetTickCount] ++ r2.2 ++ (Cleanup r2.1).2 ++ closeMutex e.mutex := h
            rcases List.mem_append.1 hmem with h | h
            · rcases List.mem_append.1 h with h | h
              · rcases List.mem_append.1 h with h | h
                · simp [windowCalls] at h
                · exact dialog_not_in_coordinatorLoop _ _ _ _ hloop h
              · exact dialog_not_in_Cleanup _ h
            · exact dialog_not_in_closeMutex _ h

/-- Witness for C5: a launch failure returns 1, and a run whose first
iteration is quiet (no time has passed since launch) and whose second
iteration finds the child exited with code 1 returns 0. -/
theorem exit_status_first_instance_witness :
    ({ goodStartup [] with createProcessOk := false } : StartupEnv).lastError
      ≠ ERROR_ALREADY_EXISTS ∧
    (∃ r, wWinMain { goodStartup [] with createProcessOk := false } = some r ∧
      r.exitCode = 1) ∧
    (∃ r, wWinMain (goodStartup [quietObs, exitedObs 1]) = some r ∧ r.exitCode = 0) :=
  ⟨by decide,
    (exit_status_first_instance { goodStartup [] with createProcessOk := false }
      (by decide)).1 (Or.inr (Or.inr ⟨by decide, by decide, rfl⟩)),
    ((exit_status_first_instance (goodStartup [quietObs, exitedObs 1]) (by decide)).2.1
      (not_fatal_of_ok _ (by decide) (by decide) rfl)).2
      ⟨exitedObs 1, List.mem_cons_of_mem _ (List.mem_cons_self _ _), by decide⟩⟩

end Launcher
